import Mathlib

/-!
Verification of the scripted UI-test command interpreter of the
dear-imgui test-engine shim (shim/script_tests.cpp).

The shim records an ordered command buffer (`ImGuiTestEngineScript`) via
C-linkage append functions and replays it inside `script_test_func`
against a live test context.  We embed the shim shallowly:

* the command tag enum and command record mirror `ImGuiTestEngineScript::CmdKind`
  and `ImGuiTestEngineScript::Cmd` field for field (C `int` becomes `Int`,
  C `float` becomes `Rat`: the shim only subtracts, negates and compares
  floats, which are exact ordered-field operations on the values involved);
* the external test-engine context (`ImGuiTestContext`) is an opaque
  collaborator; we model the queries the shim makes of it
  (`ItemExists`, `ItemInfo`, `ItemReadAs*`) as functions of the current
  simulated frame, the frame-advance primitive (`Yield`) as a frame
  counter increment that the environment may flag as failing, and every
  purely delegated interaction (click, type, drag, ...) as an opaque
  state transformer supplied by the environment;
* `ImGuiTestEngine_Error` is a structured error sink: raising an error
  sets the context's error flag and appends a structured record carrying
  exactly the fields the C code passes as format arguments.

The interpreter loop `runCmds` additionally returns the list of commands
it actually executed, in execution order, so that ordering and
short-circuit properties can be stated.
-/

namespace ImGuiTE

/-- Command tags, mirroring `ImGuiTestEngineScript::CmdKind` constructor for
constructor (script_tests.cpp lines 20-104). -/
inductive CmdKind where
  | SetRef
  | ItemClick
  | ItemClickWithButton
  | ItemDoubleClick
  | ItemOpen
  | ItemClose
  | ItemCheck
  | ItemUncheck
  | ItemInputInt
  | ItemInputStr
  | MouseMove
  | MouseMoveToPos
  | MouseTeleportToPos
  | MouseMoveToVoid
  | MouseClick
  | MouseClickMulti
  | MouseDoubleClick
  | MouseDown
  | MouseUp
  | MouseLiftDragThreshold
  | MouseDragWithDelta
  | MouseClickOnVoid
  | MouseWheel
  | KeyDown
  | KeyUp
  | KeyPress
  | KeyHold
  | KeyChars
  | KeyCharsAppend
  | KeyCharsAppendEnter
  | KeyCharsReplace
  | KeyCharsReplaceEnter
  | ItemHold
  | ItemHoldForFrames
  | ItemDragOverAndHold
  | ItemDragAndDrop
  | ItemDragWithDelta
  | ScrollToX
  | ScrollToY
  | ScrollToPosX
  | ScrollToPosY
  | ScrollToItemX
  | ScrollToItemY
  | ScrollToTop
  | ScrollToBottom
  | TabClose
  | ComboClick
  | ComboClickAll
  | ItemOpenAll
  | ItemCloseAll
  | TableClickHeader
  | TableOpenContextMenu
  | TableSetColumnEnabled
  | TableSetColumnEnabledByLabel
  | TableResizeColumn
  | MenuClick
  | MenuCheck
  | MenuUncheck
  | MenuCheckAll
  | MenuUncheckAll
  | SetInputMode
  | NavMoveTo
  | NavActivate
  | NavInput
  | WindowClose
  | WindowCollapse
  | WindowFocus
  | WindowBringToFront
  | WindowMove
  | WindowResize
  | Sleep
  | AssertItemExists
  | AssertItemVisible
  | AssertItemReadIntEq
  | AssertItemReadStrEq
  | AssertItemReadFloatEq
  | WaitForItem
  | WaitForItemVisible
  | AssertItemChecked
  | AssertItemOpened
  | WaitForItemChecked
  | WaitForItemOpened
  | Yield
deriving DecidableEq, Repr

/-- One recorded command, mirroring `ImGuiTestEngineScript::Cmd`
(script_tests.cpp lines 106-114): a tag, two strings, two ints, two floats,
all value-initialized by default. -/
structure Cmd where
  Kind : CmdKind
  A : String := ""
  B : String := ""
  I : Int := 0
  J : Int := 0
  F : Rat := 0
  G : Rat := 0
deriving DecidableEq, Repr

/-- Structured failure record: one constructor per `ImGuiTestEngine_Error`
call site in `script_test_func`, carrying exactly the fields the C code
passes as format arguments; `engineError` stands for a failure raised by
the engine itself during a delegated call or a frame advance. -/
inductive ErrMsg where
  | itemDoesNotExist (locator ref : String)
  | itemNotVisible (locator ref : String)
  | itemNotChecked (locator ref : String)
  | itemNotOpened (locator ref : String)
  | readIntMismatch (locator : String) (got expected : Int) (ref : String)
  | readStrMismatch (locator got expected ref : String)
  | readFloatMismatch (locator : String) (got expected eps : Rat) (ref : String)
  | timeoutItem (locator : String) (maxFrames : Int) (ref : String)
  | timeoutItemVisible (locator : String) (maxFrames : Int) (ref : String)
  | timeoutItemChecked (locator : String) (maxFrames : Int) (ref : String)
  | timeoutItemOpened (locator : String) (maxFrames : Int) (ref : String)
  | engineError
deriving DecidableEq, Repr

/-- Result of the engine's `ItemInfo` query: an id (0 when the item does not
resolve) and a status-flag bitset, mirroring the two fields of
`ImGuiTestItemInfo` that `script_test_func` reads. -/
structure ImGuiTestItemInfo where
  ID : Nat
  StatusFlags : Nat
deriving DecidableEq, Repr

/-- Status-flag bit tested by `AssertItemVisible` / `WaitForItemVisible`
(value of `ImGuiItemStatusFlags_Visible` in imgui_internal.h). -/
def ImGuiItemStatusFlags_Visible : Nat := 2 ^ 8

/-- Status-flag bit tested by `AssertItemOpened` / `WaitForItemOpened`
(value of `ImGuiItemStatusFlags_Opened` in imgui_internal.h). -/
def ImGuiItemStatusFlags_Opened : Nat := 2 ^ 21

/-- Status-flag bit tested by `AssertItemChecked` / `WaitForItemChecked`
(value of `ImGuiItemStatusFlags_Checked` in imgui_internal.h). -/
def ImGuiItemStatusFlags_Checked : Nat := 2 ^ 23

/-- Observable state of the test context during one run: the error flag
(`ctx->IsError()`), the number of simulated frames advanced so far, the
context's current reference path (`ctx->RefStr`, read by error messages),
and the structured errors reported so far. -/
structure Ctx where
  errored : Bool := false
  frame : Nat := 0
  RefStr : String := ""
  errors : List ErrMsg := []
deriving DecidableEq, Repr

/-- Behaviour of the external test engine during one run.  Item queries are
functions of the simulated frame (UI state evolves only when frames
advance); `frameErr f` says whether the engine flags an error during the
advance from frame `f`; `delegate` is the opaque effect of a purely
forwarded interaction command on the context. -/
structure Env where
  itemExists : Nat → String → Bool
  itemInfo : Nat → String → ImGuiTestItemInfo
  readInt : Nat → String → Int
  readStr : Nat → String → Option String
  readFloat : Nat → String → Rat
  frameErr : Nat → Bool
  delegate : Ctx → Cmd → Ctx

/-- Model of `ImGuiTestEngine_Error`: set the context error flag and append
the structured failure record to the error sink. -/
def raiseError (ctx : Ctx) (e : ErrMsg) : Ctx :=
  { ctx with errored := true, errors := ctx.errors ++ [e] }

/-- Advance the simulated frame loop by one frame (`ctx->Yield(1)`); the
engine may flag an error during the advance. -/
def ctxYield1 (env : Env) (ctx : Ctx) : Ctx :=
  if env.frameErr ctx.frame then
    { ctx with
        frame := ctx.frame + 1
        errored := true
        errors := ctx.errors ++ [ErrMsg.engineError] }
  else
    { ctx with frame := ctx.frame + 1 }

/-- Advance the simulated frame loop by `n` frames (`ctx->Yield(n)`). -/
def ctxYieldN (env : Env) : Ctx → Nat → Ctx
  | ctx, 0 => ctx
  | ctx, Nat.succ n => ctxYieldN env (ctxYield1 env ctx) n

/-- Polling loop of the `WaitForItem` case (script_tests.cpp lines 512-520):
check `ItemExists`, break on success, otherwise advance one frame and
return early (`true`) if the advance flagged an error. -/
def waitExistsLoop (env : Env) (a : String) : Nat → Ctx → Ctx × Bool
  | 0, ctx => (ctx, false)
  | Nat.succ n, ctx =>
    if env.itemExists ctx.frame a then (ctx, false)
    else
      let ctx1 := ctxYield1 env ctx
      if ctx1.errored then (ctx1, true)
      else waitExistsLoop env a n ctx1

/-- Outcome of a status-flag polling loop: predicate observed true, run
aborted by an error during a frame advance, or budget exhausted. -/
inductive WaitOut where
  | ok
  | aborted
  | exhausted
deriving DecidableEq, Repr

/-- Polling loop shared by the `WaitForItemVisible` / `WaitForItemChecked` /
`WaitForItemOpened` cases: query `ItemInfo`, succeed when the item resolves
and carries the requested status bit, otherwise advance one frame and abort
if the advance flagged an error.  Unlike `waitExistsLoop`, the caller only
learns the `ok` flag: the predicate is not re-checked after the loop. -/
def waitFlagLoop (env : Env) (a : String) (bit : Nat) : Nat → Ctx → Ctx × WaitOut
  | 0, ctx => (ctx, WaitOut.exhausted)
  | Nat.succ n, ctx =>
    let info := env.itemInfo ctx.frame a
    if info.ID ≠ 0 ∧ info.StatusFlags &&& bit ≠ 0 then (ctx, WaitOut.ok)
    else
      let ctx1 := ctxYield1 env ctx
      if ctx1.errored then (ctx1, WaitOut.aborted)
      else waitFlagLoop env a bit n ctx1

/-- Execute one command against the context, mirroring the `switch` body of
`script_test_func` (script_tests.cpp lines 148-691).  The returned `Bool` is
the early-`return` flag: `true` exactly when the case body returned from the
test function (every assertion failure and wait timeout does so after
raising its error; an error flagged during a wait's frame advance also
does).  Interaction kinds that forward a single call to the external engine
are modelled by the environment's opaque `delegate`; `MouseClickOnVoid`
repeats its delegated call `J` times, and `Yield` forwards `I` to the
frame-advance primitive, exactly as in the source. -/
def execCmd (env : Env) (ctx : Ctx) (cmd : Cmd) : Ctx × Bool :=
  match cmd.Kind with
  | CmdKind.MouseClickOnVoid =>
    ((List.range cmd.J.toNat).foldl (fun c _ => env.delegate c cmd) ctx, false)
  | CmdKind.AssertItemExists =>
    if !(env.itemExists ctx.frame cmd.A) then
      (raiseError ctx (ErrMsg.itemDoesNotExist cmd.A ctx.RefStr), true)
    else (ctx, false)
  | CmdKind.AssertItemVisible =>
    if !(env.itemExists ctx.frame cmd.A) then
      (raiseError ctx (ErrMsg.itemDoesNotExist cmd.A ctx.RefStr), true)
    else
      let info := env.itemInfo ctx.frame cmd.A
      if info.StatusFlags &&& ImGuiItemStatusFlags_Visible = 0 then
        (raiseError ctx (ErrMsg.itemNotVisible cmd.A ctx.RefStr), true)
      else (ctx, false)
  | CmdKind.AssertItemReadIntEq =>
    if !(env.itemExists ctx.frame cmd.A) then
      (raiseError ctx (ErrMsg.itemDoesNotExist cmd.A ctx.RefStr), true)
    else
      let got := env.readInt ctx.frame cmd.A
      if got ≠ cmd.I then
        (raiseError ctx (ErrMsg.readIntMismatch cmd.A got cmd.I ctx.RefStr), true)
      else (ctx, false)
  | CmdKind.AssertItemReadStrEq =>
    if !(env.itemExists ctx.frame cmd.A) then
      (raiseError ctx (ErrMsg.itemDoesNotExist cmd.A ctx.RefStr), true)
    else
      let got_s := (env.readStr ctx.frame cmd.A).getD ""
      if got_s ≠ cmd.B then
        (raiseError ctx (ErrMsg.readStrMismatch cmd.A got_s cmd.B ctx.RefStr), true)
      else (ctx, false)
  | CmdKind.AssertItemReadFloatEq =>
    if !(env.itemExists ctx.frame cmd.A) then
      (raiseError ctx (ErrMsg.itemDoesNotExist cmd.A ctx.RefStr), true)
    else
      let got := env.readFloat ctx.frame cmd.A
      let diff0 := got - cmd.F
      let diff := if diff0 < 0 then -diff0 else diff0
      let eps := if cmd.G < 0 then -cmd.G else cmd.G
      if diff > eps then
        (raiseError ctx (ErrMsg.readFloatMismatch cmd.A got cmd.F eps ctx.RefStr), true)
      else (ctx, false)
  | CmdKind.WaitForItem =>
    let mf : Int := if cmd.I < 1 then 1 else cmd.I
    let r := waitExistsLoop env cmd.A mf.toNat ctx
    if r.2 then (r.1, true)
    else if !(env.itemExists r.1.frame cmd.A) then
      (raiseError r.1 (ErrMsg.timeoutItem cmd.A mf r.1.RefStr), true)
    else (r.1, false)
  | CmdKind.WaitForItemVisible =>
    let mf : Int := if cmd.I < 1 then 1 else cmd.I
    match waitFlagLoop env cmd.A ImGuiItemStatusFlags_Visible mf.toNat ctx with
    | (ctx1, WaitOut.ok) => (ctx1, false)
    | (ctx1, WaitOut.aborted) => (ctx1, true)
    | (ctx1, WaitOut.exhausted) =>
      (raiseError ctx1 (ErrMsg.timeoutItemVisible cmd.A mf ctx1.RefStr), true)
  | CmdKind.AssertItemChecked =>
    let info := env.itemInfo ctx.frame cmd.A
    if info.ID = 0 then
      (raiseError ctx (ErrMsg.itemDoesNotExist cmd.A ctx.RefStr), true)
    else if info.StatusFlags &&& ImGuiItemStatusFlags_Checked = 0 then
      (raiseError ctx (ErrMsg.itemNotChecked cmd.A ctx.RefStr), true)
    else (ctx, false)
  | CmdKind.AssertItemOpened =>
    let info := env.itemInfo ctx.frame cmd.A
    if info.ID = 0 then
      (raiseError ctx (ErrMsg.itemDoesNotExist cmd.A ctx.RefStr), true)
    else if info.StatusFlags &&& ImGuiItemStatusFlags_Opened = 0 then
      (raiseError ctx (ErrMsg.itemNotOpened cmd.A ctx.RefStr), true)
    else (ctx, false)
  | CmdKind.WaitForItemChecked =>
    let mf : Int := if cmd.I < 1 then 1 else cmd.I
    match waitFlagLoop env cmd.A ImGuiItemStatusFlags_Checked mf.toNat ctx with
    | (ctx1, WaitOut.ok) => (ctx1, false)
    | (ctx1, WaitOut.aborted) => (ctx1, true)
    | (ctx1, WaitOut.exhausted) =>
      (raiseError ctx1 (ErrMsg.timeoutItemChecked cmd.A mf ctx1.RefStr), true)
  | CmdKind.WaitForItemOpened =>
    let mf : Int := if cmd.I < 1 then 1 else cmd.I
    match waitFlagLoop env cmd.A ImGuiItemStatusFlags_Opened mf.toNat ctx with
    | (ctx1, WaitOut.ok) => (ctx1, false)
    | (ctx1, WaitOut.aborted) => (ctx1, true)
    | (ctx1, WaitOut.exhausted) =>
      (raiseError ctx1 (ErrMsg.timeoutItemOpened cmd.A mf ctx1.RefStr), true)
  | CmdKind.Yield =>
    (ctxYieldN env ctx cmd.I.toNat, false)
  | _ => (env.delegate ctx cmd, false)

/-- Replay loop of `script_test_func` (script_tests.cpp lines 144-692): walk
the command list in order; before each command, stop if the context is
already in an error state; stop when a command's case body returned early.
Also returns the list of commands actually executed, in execution order. -/
def runCmds (env : Env) : List Cmd → Ctx → Ctx × List Cmd
  | [], ctx => (ctx, [])
  | c :: rest, ctx =>
    if ctx.errored then (ctx, [])
    else
      let r := execCmd env ctx c
      if r.2 then (r.1, [c])
      else
        let s := runCmds env rest r.1
        (s.1, c :: s.2)

/-- The command buffer: a category label and the ordered command list,
mirroring `ImGuiTestEngineScript` (script_tests.cpp lines 116-117). -/
structure ImGuiTestEngineScript where
  Category : String := ""
  Cmds : List Cmd := []
deriving DecidableEq, Repr

/-- Entry point the engine invokes for a registered script test
(`script_test_func`): replay the buffer attached to the running test. -/
def script_test_func (env : Env) (ctx : Ctx) (script : ImGuiTestEngineScript) :
    Ctx × List Cmd :=
  runCmds env script.Cmds ctx

/-- Append wrapper `imgui_test_engine_script_set_ref` from script_tests.cpp:
null handle is a no-op, null strings are stored as the empty string, one
`SetRef` command is appended at the end of the buffer. -/
def imgui_test_engine_script_set_ref (script : Option ImGuiTestEngineScript) (ref : Option String) :
    Option ImGuiTestEngineScript :=
  match script with
  | none => none
  | some s => some { s with Cmds := s.Cmds ++ [{ Kind := CmdKind.SetRef, A := ref.getD "" }] }

/-- Append wrapper `imgui_test_engine_script_item_click` from script_tests.cpp:
null handle is a no-op, null strings are stored as the empty string, one
`ItemClick` command is appended at the end of the buffer. -/
def imgui_test_engine_script_item_click (script : Option ImGuiTestEngineScript) (ref : Option String) :
    Option ImGuiTestEngineScript :=
  match script with
  | none => none
  | some s => some { s with Cmds := s.Cmds ++ [{ Kind := CmdKind.ItemClick, A := ref.getD "" }] }

/-- Append wrapper `imgui_test_engine_script_item_click_with_button` from script_tests.cpp:
null handle is a no-op, null strings are stored as the empty string, one
`ItemClickWithButton` command is appended at the end of the buffer. -/
def imgui_test_engine_script_item_click_with_button (script : Option ImGuiTestEngineScript) (ref : Option String) (button : Int) :
    Option ImGuiTestEngineScript :=
  match script with
  | none => none
  | some s => some { s with Cmds := s.Cmds ++ [{ Kind := CmdKind.ItemClickWithButton, A := ref.getD "", I := button }] }

/-- Append wrapper `imgui_test_engine_script_item_double_click` from script_tests.cpp:
null handle is a no-op, null strings are stored as the empty string, one
`ItemDoubleClick` command is appended at the end of the buffer. -/
def imgui_test_engine_script_item_double_click (script : Option ImGuiTestEngineScript) (ref : Option String) :
    Option ImGuiTestEngineScript :=
  match script with
  | none => none
  | some s => some { s with Cmds := s.Cmds ++ [{ Kind := CmdKind.ItemDoubleClick, A := ref.getD "" }] }

/-- Append wrapper `imgui_test_engine_script_item_open` from script_tests.cpp:
null handle is a no-op, null strings are stored as the empty string, one
`ItemOpen` command is appended at the end of the buffer. -/
def imgui_test_engine_script_item_open (script : Option ImGuiTestEngineScript) (ref : Option String) :
    Option ImGuiTestEngineScript :=
  match script with
  | none => none
  | some s => some { s with Cmds := s.Cmds ++ [{ Kind := CmdKind.ItemOpen, A := ref.getD "" }] }

/-- Append wrapper `imgui_test_engine_script_item_close` from script_tests.cpp:
null handle is a no-op, null strings are stored as the empty string, one
`ItemClose` command is appended at the end of the buffer. -/
def imgui_test_engine_script_item_close (script : Option ImGuiTestEngineScript) (ref : Option String) :
    Option ImGuiTestEngineScript :=
  match script with
  | none => none
  | some s => some { s with Cmds := s.Cmds ++ [{ Kind := CmdKind.ItemClose, A := ref.getD "" }] }

/-- Append wrapper `imgui_test_engine_script_item_check` from script_tests.cpp:
null handle is a no-op, null strings are stored as the empty string, one
`ItemCheck` command is appended at the end of the buffer. -/
def imgui_test_engine_script_item_check (script : Option ImGuiTestEngineScript) (ref : Option String) :
    Option ImGuiTestEngineScript :=
  match script with
  | none => none
  | some s => some { s with Cmds := s.Cmds ++ [{ Kind := CmdKind.ItemCheck, A := ref.getD "" }] }

/-- Append wrapper `imgui_test_engine_script_item_uncheck` from script_tests.cpp:
null handle is a no-op, null strings are stored as the empty string, one
`ItemUncheck` command is appended at the end of the buffer. -/
def imgui_test_engine_script_item_uncheck (script : Option ImGuiTestEngineScript) (ref : Option String) :
    Option ImGuiTestEngineScript :=
  match script with
  | none => none
  | some s => some { s with Cmds := s.Cmds ++ [{ Kind := CmdKind.ItemUncheck, A := ref.getD "" }] }

/-- Append wrapper `imgui_test_engine_script_item_input_int` from script_tests.cpp:
null handle is a no-op, null strings are stored as the empty string, one
`ItemInputInt` command is appended at the end of the buffer. -/
def imgui_test_engine_script_item_input_int (script : Option ImGuiTestEngineScript) (ref : Option String) (v : Int) :
    Option ImGuiTestEngineScript :=
  match script with
  | none => none
  | some s => some { s with Cmds := s.Cmds ++ [{ Kind := CmdKind.ItemInputInt, A := ref.getD "", I := v }] }

/-- Append wrapper `imgui_test_engine_script_item_input_str` from script_tests.cpp:
null handle is a no-op, null strings are stored as the empty string, one
`ItemInputStr` command is appended at the end of the buffer. -/
def imgui_test_engine_script_item_input_str (script : Option ImGuiTestEngineScript) (ref : Option String) (v : Option String) :
    Option ImGuiTestEngineScript :=
  match script with
  | none => none
  | some s => some { s with Cmds := s.Cmds ++ [{ Kind := CmdKind.ItemInputStr, A := ref.getD "", B := v.getD "" }] }

/-- Append wrapper `imgui_test_engine_script_mouse_move` from script_tests.cpp:
null handle is a no-op, null strings are stored as the empty string, one
`MouseMove` command is appended at the end of the buffer. -/
def imgui_test_engine_script_mouse_move (script : Option ImGuiTestEngineScript) (ref : Option String) :
    Option ImGuiTestEngineScript :=
  match script with
  | none => none
  | some s => some { s with Cmds := s.Cmds ++ [{ Kind := CmdKind.MouseMove, A := ref.getD "" }] }

/-- Append wrapper `imgui_test_engine_script_mouse_move_to_pos` from script_tests.cpp:
null handle is a no-op, null strings are stored as the empty string, one
`MouseMoveToPos` command is appended at the end of the buffer. -/
def imgui_test_engine_script_mouse_move_to_pos (script : Option ImGuiTestEngineScript) (x : Rat) (y : Rat) :
    Option ImGuiTestEngineScript :=
  match script with
  | none => none
  | some s => some { s with Cmds := s.Cmds ++ [{ Kind := CmdKind.MouseMoveToPos, F := x, G := y }] }

/-- Append wrapper `imgui_test_engine_script_mouse_teleport_to_pos` from script_tests.cpp:
null handle is a no-op, null strings are stored as the empty string, one
`MouseTeleportToPos` command is appended at the end of the buffer. -/
def imgui_test_engine_script_mouse_teleport_to_pos (script : Option ImGuiTestEngineScript) (x : Rat) (y : Rat) :
    Option ImGuiTestEngineScript :=
  match script with
  | none => none
  | some s => some { s with Cmds := s.Cmds ++ [{ Kind := CmdKind.MouseTeleportToPos, F := x, G := y }] }

/-- Append wrapper `imgui_test_engine_script_mouse_move_to_void` from script_tests.cpp:
null handle is a no-op, null strings are stored as the empty string, one
`MouseMoveToVoid` command is appended at the end of the buffer. -/
def imgui_test_engine_script_mouse_move_to_void (script : Option ImGuiTestEngineScript) :
    Option ImGuiTestEngineScript :=
  match script with
  | none => none
  | some s => some { s with Cmds := s.Cmds ++ [{ Kind := CmdKind.MouseMoveToVoid }] }

/-- Append wrapper `imgui_test_engine_script_mouse_click` from script_tests.cpp:
null handle is a no-op, null strings are stored as the empty string, one
`MouseClick` command is appended at the end of the buffer. -/
def imgui_test_engine_script_mouse_click (script : Option ImGuiTestEngineScript) (button : Int) :
    Option ImGuiTestEngineScript :=
  match script with
  | none => none
  | some s => some { s with Cmds := s.Cmds ++ [{ Kind := CmdKind.MouseClick, I := button }] }

/-- Append wrapper `imgui_test_engine_script_mouse_click_multi` from script_tests.cpp:
null handle is a no-op, null strings are stored as the empty string, one
`MouseClickMulti` command is appended at the end of the buffer. -/
def imgui_test_engine_script_mouse_click_multi (script : Option ImGuiTestEngineScript) (button : Int) (count : Int) :
    Option ImGuiTestEngineScript :=
  match script with
  | none => none
  | some s => some { s with Cmds := s.Cmds ++ [{ Kind := CmdKind.MouseClickMulti, I := button, J := count }] }

/-- Append wrapper `imgui_test_engine_script_mouse_double_click` from script_tests.cpp:
null handle is a no-op, null strings are stored as the empty string, one
`MouseDoubleClick` command is appended at the end of the buffer. -/
def imgui_test_engine_script_mouse_double_click (script : Option ImGuiTestEngineScript) (button : Int) :
    Option ImGuiTestEngineScript :=
  match script with
  | none => none
  | some s => some { s with Cmds := s.Cmds ++ [{ Kind := CmdKind.MouseDoubleClick, I := button }] }

/-- Append wrapper `imgui_test_engine_script_mouse_down` from script_tests.cpp:
null handle is a no-op, null strings are stored as the empty string, one
`MouseDown` command is appended at the end of the buffer. -/
def imgui_test_engine_script_mouse_down (script : Option ImGuiTestEngineScript) (button : Int) :
    Option ImGuiTestEngineScript :=
  match script with
  | none => none
  | some s => some { s with Cmds := s.Cmds ++ [{ Kind := CmdKind.MouseDown, I := button }] }

/-- Append wrapper `imgui_test_engine_script_mouse_up` from script_tests.cpp:
null handle is a no-op, null strings are stored as the empty string, one
`MouseUp` command is appended at the end of the buffer. -/
def imgui_test_engine_script_mouse_up (script : Option ImGuiTestEngineScript) (button : Int) :
    Option ImGuiTestEngineScript :=
  match script with
  | none => none
  | some s => some { s with Cmds := s.Cmds ++ [{ Kind := CmdKind.MouseUp, I := button }] }

/-- Append wrapper `imgui_test_engine_script_mouse_lift_drag_threshold` from script_tests.cpp:
null handle is a no-op, null strings are stored as the empty string, one
`MouseLiftDragThreshold` command is appended at the end of the buffer. -/
def imgui_test_engine_script_mouse_lift_drag_threshold (script : Option ImGuiTestEngineScript) (button : Int) :
    Option ImGuiTestEngineScript :=
  match script with
  | none => none
  | some s => some { s with Cmds := s.Cmds ++ [{ Kind := CmdKind.MouseLiftDragThreshold, I := button }] }

/-- Append wrapper `imgui_test_engine_script_mouse_drag_with_delta` from script_tests.cpp:
null handle is a no-op, null strings are stored as the empty string, one
`MouseDragWithDelta` command is appended at the end of the buffer. -/
def imgui_test_engine_script_mouse_drag_with_delta (script : Option ImGuiTestEngineScript) (dx : Rat) (dy : Rat) (button : Int) :
    Option ImGuiTestEngineScript :=
  match script with
  | none => none
  | some s => some { s with Cmds := s.Cmds ++ [{ Kind := CmdKind.MouseDragWithDelta, I := button, F := dx, G := dy }] }

/-- Append wrapper `imgui_test_engine_script_mouse_click_on_void` from script_tests.cpp:
null handle is a no-op, null strings are stored as the empty string, one
`MouseClickOnVoid` command is appended at the end of the buffer. -/
def imgui_test_engine_script_mouse_click_on_void (script : Option ImGuiTestEngineScript) (button : Int) (count : Int) :
    Option ImGuiTestEngineScript :=
  match script with
  | none => none
  | some s => some { s with Cmds := s.Cmds ++ [{ Kind := CmdKind.MouseClickOnVoid, I := button, J := count }] }

/-- Append wrapper `imgui_test_engine_script_mouse_wheel` from script_tests.cpp:
null handle is a no-op, null strings are stored as the empty string, one
`MouseWheel` command is appended at the end of the buffer. -/
def imgui_test_engine_script_mouse_wheel (script : Option ImGuiTestEngineScript) (dx : Rat) (dy : Rat) :
    Option ImGuiTestEngineScript :=
  match script with
  | none => none
  | some s => some { s with Cmds := s.Cmds ++ [{ Kind := CmdKind.MouseWheel, F := dx, G := dy }] }

/-- Append wrapper `imgui_test_engine_script_key_down` from script_tests.cpp:
null handle is a no-op, null strings are stored as the empty string, one
`KeyDown` command is appended at the end of the buffer. -/
def imgui_test_engine_script_key_down (script : Option ImGuiTestEngineScript) (key_chord : Int) :
    Option ImGuiTestEngineScript :=
  match script with
  | none => none
  | some s => some { s with Cmds := s.Cmds ++ [{ Kind := CmdKind.KeyDown, I := key_chord }] }

/-- Append wrapper `imgui_test_engine_script_key_up` from script_tests.cpp:
null handle is a no-op, null strings are stored as the empty string, one
`KeyUp` command is appended at the end of the buffer. -/
def imgui_test_engine_script_key_up (script : Option ImGuiTestEngineScript) (key_chord : Int) :
    Option ImGuiTestEngineScript :=
  match script with
  | none => none
  | some s => some { s with Cmds := s.Cmds ++ [{ Kind := CmdKind.KeyUp, I := key_chord }] }

/-- Append wrapper `imgui_test_engine_script_key_press` from script_tests.cpp:
null handle is a no-op, null strings are stored as the empty string, one
`KeyPress` command is appended at the end of the buffer. -/
def imgui_test_engine_script_key_press (script : Option ImGuiTestEngineScript) (key_chord : Int) (count : Int) :
    Option ImGuiTestEngineScript :=
  match script with
  | none => none
  | some s => some { s with Cmds := s.Cmds ++ [{ Kind := CmdKind.KeyPress, I := key_chord, J := count }] }

/-- Append wrapper `imgui_test_engine_script_key_hold` from script_tests.cpp:
null handle is a no-op, null strings are stored as the empty string, one
`KeyHold` command is appended at the end of the buffer. -/
def imgui_test_engine_script_key_hold (script : Option ImGuiTestEngineScript) (key_chord : Int) (time_in_seconds : Rat) :
    Option ImGuiTestEngineScript :=
  match script with
  | none => none
  | some s => some { s with Cmds := s.Cmds ++ [{ Kind := CmdKind.KeyHold, I := key_chord, F := time_in_seconds }] }

/-- Append wrapper `imgui_test_engine_script_key_chars` from script_tests.cpp:
null handle is a no-op, null strings are stored as the empty string, one
`KeyChars` command is appended at the end of the buffer. -/
def imgui_test_engine_script_key_chars (script : Option ImGuiTestEngineScript) (chars : Option String) :
    Option ImGuiTestEngineScript :=
  match script with
  | none => none
  | some s => some { s with Cmds := s.Cmds ++ [{ Kind := CmdKind.KeyChars, A := chars.getD "" }] }

/-- Append wrapper `imgui_test_engine_script_key_chars_append` from script_tests.cpp:
null handle is a no-op, null strings are stored as the empty string, one
`KeyCharsAppend` command is appended at the end of the buffer. -/
def imgui_test_engine_script_key_chars_append (script : Option ImGuiTestEngineScript) (chars : Option String) :
    Option ImGuiTestEngineScript :=
  match script with
  | none => none
  | some s => some { s with Cmds := s.Cmds ++ [{ Kind := CmdKind.KeyCharsAppend, A := chars.getD "" }] }

/-- Append wrapper `imgui_test_engine_script_key_chars_append_enter` from script_tests.cpp:
null handle is a no-op, null strings are stored as the empty string, one
`KeyCharsAppendEnter` command is appended at the end of the buffer. -/
def imgui_test_engine_script_key_chars_append_enter (script : Option ImGuiTestEngineScript) (chars : Option String) :
    Option ImGuiTestEngineScript :=
  match script with
  | none => none
  | some s => some { s with Cmds := s.Cmds ++ [{ Kind := CmdKind.KeyCharsAppendEnter, A := chars.getD "" }] }

/-- Append wrapper `imgui_test_engine_script_key_chars_replace` from script_tests.cpp:
null handle is a no-op, null strings are stored as the empty string, one
`KeyCharsReplace` command is appended at the end of the buffer. -/
def imgui_test_engine_script_key_chars_replace (script : Option ImGuiTestEngineScript) (chars : Option String) :
    Option ImGuiTestEngineScript :=
  match script with
  | none => none
  | some s => some { s with Cmds := s.Cmds ++ [{ Kind := CmdKind.KeyCharsReplace, A := chars.getD "" }] }

/-- Append wrapper `imgui_test_engine_script_key_chars_replace_enter` from script_tests.cpp:
null handle is a no-op, null strings are stored as the empty string, one
`KeyCharsReplaceEnter` command is appended at the end of the buffer. -/
def imgui_test_engine_script_key_chars_replace_enter (script : Option ImGuiTestEngineScript) (chars : Option String) :
    Option ImGuiTestEngineScript :=
  match script with
  | none => none
  | some s => some { s with Cmds := s.Cmds ++ [{ Kind := CmdKind.KeyCharsReplaceEnter, A := chars.getD "" }] }

/-- Append wrapper `imgui_test_engine_script_item_hold` from script_tests.cpp:
null handle is a no-op, null strings are stored as the empty string, one
`ItemHold` command is appended at the end of the buffer. -/
def imgui_test_engine_script_item_hold (script : Option ImGuiTestEngineScript) (ref : Option String) (time_in_seconds : Rat) :
    Option ImGuiTestEngineScript :=
  match script with
  | none => none
  | some s => some { s with Cmds := s.Cmds ++ [{ Kind := CmdKind.ItemHold, A := ref.getD "", F := time_in_seconds }] }

/-- Append wrapper `imgui_test_engine_script_item_hold_for_frames` from script_tests.cpp:
null handle is a no-op, null strings are stored as the empty string, one
`ItemHoldForFrames` command is appended at the end of the buffer. -/
def imgui_test_engine_script_item_hold_for_frames (script : Option ImGuiTestEngineScript) (ref : Option String) (frames : Int) :
    Option ImGuiTestEngineScript :=
  match script with
  | none => none
  | some s => some { s with Cmds := s.Cmds ++ [{ Kind := CmdKind.ItemHoldForFrames, A := ref.getD "", I := frames }] }

/-- Append wrapper `imgui_test_engine_script_item_drag_over_and_hold` from script_tests.cpp:
null handle is a no-op, null strings are stored as the empty string, one
`ItemDragOverAndHold` command is appended at the end of the buffer. -/
def imgui_test_engine_script_item_drag_over_and_hold (script : Option ImGuiTestEngineScript) (ref_src : Option String) (ref_dst : Option String) :
    Option ImGuiTestEngineScript :=
  match script with
  | none => none
  | some s => some { s with Cmds := s.Cmds ++ [{ Kind := CmdKind.ItemDragOverAndHold, A := ref_src.getD "", B := ref_dst.getD "" }] }

/-- Append wrapper `imgui_test_engine_script_item_drag_and_drop` from script_tests.cpp:
null handle is a no-op, null strings are stored as the empty string, one
`ItemDragAndDrop` command is appended at the end of the buffer. -/
def imgui_test_engine_script_item_drag_and_drop (script : Option ImGuiTestEngineScript) (ref_src : Option String) (ref_dst : Option String) (button : Int) :
    Option ImGuiTestEngineScript :=
  match script with
  | none => none
  | some s => some { s with Cmds := s.Cmds ++ [{ Kind := CmdKind.ItemDragAndDrop, A := ref_src.getD "", B := ref_dst.getD "", I := button }] }

/-- Append wrapper `imgui_test_engine_script_item_drag_with_delta` from script_tests.cpp:
null handle is a no-op, null strings are stored as the empty string, one
`ItemDragWithDelta` command is appended at the end of the buffer. -/
def imgui_test_engine_script_item_drag_with_delta (script : Option ImGuiTestEngineScript) (ref : Option String) (dx : Rat) (dy : Rat) :
    Option ImGuiTestEngineScript :=
  match script with
  | none => none
  | some s => some { s with Cmds := s.Cmds ++ [{ Kind := CmdKind.ItemDragWithDelta, A := ref.getD "", F := dx, G := dy }] }

/-- Append wrapper `imgui_test_engine_script_scroll_to_x` from script_tests.cpp:
null handle is a no-op, null strings are stored as the empty string, one
`ScrollToX` command is appended at the end of the buffer. -/
def imgui_test_engine_script_scroll_to_x (script : Option ImGuiTestEngineScript) (ref : Option String) (scroll_x : Rat) :
    Option ImGuiTestEngineScript :=
  match script with
  | none => none
  | some s => some { s with Cmds := s.Cmds ++ [{ Kind := CmdKind.ScrollToX, A := ref.getD "", F := scroll_x }] }

/-- Append wrapper `imgui_test_engine_script_scroll_to_y` from script_tests.cpp:
null handle is a no-op, null strings are stored as the empty string, one
`ScrollToY` command is appended at the end of the buffer. -/
def imgui_test_engine_script_scroll_to_y (script : Option ImGuiTestEngineScript) (ref : Option String) (scroll_y : Rat) :
    Option ImGuiTestEngineScript :=
  match script with
  | none => none
  | some s => some { s with Cmds := s.Cmds ++ [{ Kind := CmdKind.ScrollToY, A := ref.getD "", F := scroll_y }] }

/-- Append wrapper `imgui_test_engine_script_scroll_to_pos_x` from script_tests.cpp:
null handle is a no-op, null strings are stored as the empty string, one
`ScrollToPosX` command is appended at the end of the buffer. -/
def imgui_test_engine_script_scroll_to_pos_x (script : Option ImGuiTestEngineScript) (window_ref : Option String) (pos_x : Rat) :
    Option ImGuiTestEngineScript :=
  match script with
  | none => none
  | some s => some { s with Cmds := s.Cmds ++ [{ Kind := CmdKind.ScrollToPosX, A := window_ref.getD "", F := pos_x }] }

/-- Append wrapper `imgui_test_engine_script_scroll_to_pos_y` from script_tests.cpp:
null handle is a no-op, null strings are stored as the empty string, one
`ScrollToPosY` command is appended at the end of the buffer. -/
def imgui_test_engine_script_scroll_to_pos_y (script : Option ImGuiTestEngineScript) (window_ref : Option String) (pos_y : Rat) :
    Option ImGuiTestEngineScript :=
  match script with
  | none => none
  | some s => some { s with Cmds := s.Cmds ++ [{ Kind := CmdKind.ScrollToPosY, A := window_ref.getD "", F := pos_y }] }

/-- Append wrapper `imgui_test_engine_script_scroll_to_item_x` from script_tests.cpp:
null handle is a no-op, null strings are stored as the empty string, one
`ScrollToItemX` command is appended at the end of the buffer. -/
def imgui_test_engine_script_scroll_to_item_x (script : Option ImGuiTestEngineScript) (ref : Option String) :
    Option ImGuiTestEngineScript :=
  match script with
  | none => none
  | some s => some { s with Cmds := s.Cmds ++ [{ Kind := CmdKind.ScrollToItemX, A := ref.getD "" }] }

/-- Append wrapper `imgui_test_engine_script_scroll_to_item_y` from script_tests.cpp:
null handle is a no-op, null strings are stored as the empty string, one
`ScrollToItemY` command is appended at the end of the buffer. -/
def imgui_test_engine_script_scroll_to_item_y (script : Option ImGuiTestEngineScript) (ref : Option String) :
    Option ImGuiTestEngineScript :=
  match script with
  | none => none
  | some s => some { s with Cmds := s.Cmds ++ [{ Kind := CmdKind.ScrollToItemY, A := ref.getD "" }] }

/-- Append wrapper `imgui_test_engine_script_scroll_to_top` from script_tests.cpp:
null handle is a no-op, null strings are stored as the empty string, one
`ScrollToTop` command is appended at the end of the buffer. -/
def imgui_test_engine_script_scroll_to_top (script : Option ImGuiTestEngineScript) (ref : Option String) :
    Option ImGuiTestEngineScript :=
  match script with
  | none => none
  | some s => some { s with Cmds := s.Cmds ++ [{ Kind := CmdKind.ScrollToTop, A := ref.getD "" }] }

/-- Append wrapper `imgui_test_engine_script_scroll_to_bottom` from script_tests.cpp:
null handle is a no-op, null strings are stored as the empty string, one
`ScrollToBottom` command is appended at the end of the buffer. -/
def imgui_test_engine_script_scroll_to_bottom (script : Option ImGuiTestEngineScript) (ref : Option String) :
    Option ImGuiTestEngineScript :=
  match script with
  | none => none
  | some s => some { s with Cmds := s.Cmds ++ [{ Kind := CmdKind.ScrollToBottom, A := ref.getD "" }] }

/-- Append wrapper `imgui_test_engine_script_tab_close` from script_tests.cpp:
null handle is a no-op, null strings are stored as the empty string, one
`TabClose` command is appended at the end of the buffer. -/
def imgui_test_engine_script_tab_close (script : Option ImGuiTestEngineScript) (ref : Option String) :
    Option ImGuiTestEngineScript :=
  match script with
  | none => none
  | some s => some { s with Cmds := s.Cmds ++ [{ Kind := CmdKind.TabClose, A := ref.getD "" }] }

/-- Append wrapper `imgui_test_engine_script_combo_click` from script_tests.cpp:
null handle is a no-op, null strings are stored as the empty string, one
`ComboClick` command is appended at the end of the buffer. -/
def imgui_test_engine_script_combo_click (script : Option ImGuiTestEngineScript) (ref : Option String) :
    Option ImGuiTestEngineScript :=
  match script with
  | none => none
  | some s => some { s with Cmds := s.Cmds ++ [{ Kind := CmdKind.ComboClick, A := ref.getD "" }] }

/-- Append wrapper `imgui_test_engine_script_combo_click_all` from script_tests.cpp:
null handle is a no-op, null strings are stored as the empty string, one
`ComboClickAll` command is appended at the end of the buffer. -/
def imgui_test_engine_script_combo_click_all (script : Option ImGuiTestEngineScript) (ref : Option String) :
    Option ImGuiTestEngineScript :=
  match script with
  | none => none
  | some s => some { s with Cmds := s.Cmds ++ [{ Kind := CmdKind.ComboClickAll, A := ref.getD "" }] }

/-- Append wrapper `imgui_test_engine_script_item_open_all` from script_tests.cpp:
null handle is a no-op, null strings are stored as the empty string, one
`ItemOpenAll` command is appended at the end of the buffer. -/
def imgui_test_engine_script_item_open_all (script : Option ImGuiTestEngineScript) (ref_parent : Option String) (depth : Int) (passes : Int) :
    Option ImGuiTestEngineScript :=
  match script with
  | none => none
  | some s => some { s with Cmds := s.Cmds ++ [{ Kind := CmdKind.ItemOpenAll, A := ref_parent.getD "", I := depth, J := passes }] }

/-- Append wrapper `imgui_test_engine_script_item_close_all` from script_tests.cpp:
null handle is a no-op, null strings are stored as the empty string, one
`ItemCloseAll` command is appended at the end of the buffer. -/
def imgui_test_engine_script_item_close_all (script : Option ImGuiTestEngineScript) (ref_parent : Option String) (depth : Int) (passes : Int) :
    Option ImGuiTestEngineScript :=
  match script with
  | none => none
  | some s => some { s with Cmds := s.Cmds ++ [{ Kind := CmdKind.ItemCloseAll, A := ref_parent.getD "", I := depth, J := passes }] }

/-- Append wrapper `imgui_test_engine_script_table_click_header` from script_tests.cpp:
null handle is a no-op, null strings are stored as the empty string, one
`TableClickHeader` command is appended at the end of the buffer. -/
def imgui_test_engine_script_table_click_header (script : Option ImGuiTestEngineScript) (table_ref : Option String) (label : Option String) (key_mods : Int) :
    Option ImGuiTestEngineScript :=
  match script with
  | none => none
  | some s => some { s with Cmds := s.Cmds ++ [{ Kind := CmdKind.TableClickHeader, A := table_ref.getD "", B := label.getD "", I := key_mods }] }

/-- Append wrapper `imgui_test_engine_script_table_open_context_menu` from script_tests.cpp:
null handle is a no-op, null strings are stored as the empty string, one
`TableOpenContextMenu` command is appended at the end of the buffer. -/
def imgui_test_engine_script_table_open_context_menu (script : Option ImGuiTestEngineScript) (table_ref : Option String) (column_n : Int) :
    Option ImGuiTestEngineScript :=
  match script with
  | none => none
  | some s => some { s with Cmds := s.Cmds ++ [{ Kind := CmdKind.TableOpenContextMenu, A := table_ref.getD "", I := column_n }] }

/-- Append wrapper `imgui_test_engine_script_table_set_column_enabled` from script_tests.cpp:
null handle is a no-op, null strings are stored as the empty string, one
`TableSetColumnEnabled` command is appended at the end of the buffer. -/
def imgui_test_engine_script_table_set_column_enabled (script : Option ImGuiTestEngineScript) (table_ref : Option String) (column_n : Int) (enabled : Bool) :
    Option ImGuiTestEngineScript :=
  match script with
  | none => none
  | some s => some { s with Cmds := s.Cmds ++ [{ Kind := CmdKind.TableSetColumnEnabled, A := table_ref.getD "", I := column_n, J := if enabled then 1 else 0 }] }

/-- Append wrapper `imgui_test_engine_script_table_set_column_enabled_by_label` from script_tests.cpp:
null handle is a no-op, null strings are stored as the empty string, one
`TableSetColumnEnabledByLabel` command is appended at the end of the buffer. -/
def imgui_test_engine_script_table_set_column_enabled_by_label (script : Option ImGuiTestEngineScript) (table_ref : Option String) (label : Option String) (enabled : Bool) :
    Option ImGuiTestEngineScript :=
  match script with
  | none => none
  | some s => some { s with Cmds := s.Cmds ++ [{ Kind := CmdKind.TableSetColumnEnabledByLabel, A := table_ref.getD "", B := label.getD "", I := if enabled then 1 else 0 }] }

/-- Append wrapper `imgui_test_engine_script_table_resize_column` from script_tests.cpp:
null handle is a no-op, null strings are stored as the empty string, one
`TableResizeColumn` command is appended at the end of the buffer. -/
def imgui_test_engine_script_table_resize_column (script : Option ImGuiTestEngineScript) (table_ref : Option String) (column_n : Int) (width : Rat) :
    Option ImGuiTestEngineScript :=
  match script with
  | none => none
  | some s => some { s with Cmds := s.Cmds ++ [{ Kind := CmdKind.TableResizeColumn, A := table_ref.getD "", I := column_n, F := width }] }

/-- Append wrapper `imgui_test_engine_script_menu_click` from script_tests.cpp:
null handle is a no-op, null strings are stored as the empty string, one
`MenuClick` command is appended at the end of the buffer. -/
def imgui_test_engine_script_menu_click (script : Option ImGuiTestEngineScript) (ref : Option String) :
    Option ImGuiTestEngineScript :=
  match script with
  | none => none
  | some s => some { s with Cmds := s.Cmds ++ [{ Kind := CmdKind.MenuClick, A := ref.getD "" }] }

/-- Append wrapper `imgui_test_engine_script_menu_check` from script_tests.cpp:
null handle is a no-op, null strings are stored as the empty string, one
`MenuCheck` command is appended at the end of the buffer. -/
def imgui_test_engine_script_menu_check (script : Option ImGuiTestEngineScript) (ref : Option String) :
    Option ImGuiTestEngineScript :=
  match script with
  | none => none
  | some s => some { s with Cmds := s.Cmds ++ [{ Kind := CmdKind.MenuCheck, A := ref.getD "" }] }

/-- Append wrapper `imgui_test_engine_script_menu_uncheck` from script_tests.cpp:
null handle is a no-op, null strings are stored as the empty string, one
`MenuUncheck` command is appended at the end of the buffer. -/
def imgui_test_engine_script_menu_uncheck (script : Option ImGuiTestEngineScript) (ref : Option String) :
    Option ImGuiTestEngineScript :=
  match script with
  | none => none
  | some s => some { s with Cmds := s.Cmds ++ [{ Kind := CmdKind.MenuUncheck, A := ref.getD "" }] }

/-- Append wrapper `imgui_test_engine_script_menu_check_all` from script_tests.cpp:
null handle is a no-op, null strings are stored as the empty string, one
`MenuCheckAll` command is appended at the end of the buffer. -/
def imgui_test_engine_script_menu_check_all (script : Option ImGuiTestEngineScript) (ref_parent : Option String) :
    Option ImGuiTestEngineScript :=
  match script with
  | none => none
  | some s => some { s with Cmds := s.Cmds ++ [{ Kind := CmdKind.MenuCheckAll, A := ref_parent.getD "" }] }

/-- Append wrapper `imgui_test_engine_script_menu_uncheck_all` from script_tests.cpp:
null handle is a no-op, null strings are stored as the empty string, one
`MenuUncheckAll` command is appended at the end of the buffer. -/
def imgui_test_engine_script_menu_uncheck_all (script : Option ImGuiTestEngineScript) (ref_parent : Option String) :
    Option ImGuiTestEngineScript :=
  match script with
  | none => none
  | some s => some { s with Cmds := s.Cmds ++ [{ Kind := CmdKind.MenuUncheckAll, A := ref_parent.getD "" }] }

/-- Append wrapper `imgui_test_engine_script_set_input_mode` from script_tests.cpp:
null handle is a no-op, null strings are stored as the empty string, one
`SetInputMode` command is appended at the end of the buffer. -/
def imgui_test_engine_script_set_input_mode (script : Option ImGuiTestEngineScript) (input_source : Int) :
    Option ImGuiTestEngineScript :=
  match script with
  | none => none
  | some s => some { s with Cmds := s.Cmds ++ [{ Kind := CmdKind.SetInputMode, I := input_source }] }

/-- Append wrapper `imgui_test_engine_script_nav_move_to` from script_tests.cpp:
null handle is a no-op, null strings are stored as the empty string, one
`NavMoveTo` command is appended at the end of the buffer. -/
def imgui_test_engine_script_nav_move_to (script : Option ImGuiTestEngineScript) (ref : Option String) :
    Option ImGuiTestEngineScript :=
  match script with
  | none => none
  | some s => some { s with Cmds := s.Cmds ++ [{ Kind := CmdKind.NavMoveTo, A := ref.getD "" }] }

/-- Append wrapper `imgui_test_engine_script_nav_activate` from script_tests.cpp:
null handle is a no-op, null strings are stored as the empty string, one
`NavActivate` command is appended at the end of the buffer. -/
def imgui_test_engine_script_nav_activate (script : Option ImGuiTestEngineScript) :
    Option ImGuiTestEngineScript :=
  match script with
  | none => none
  | some s => some { s with Cmds := s.Cmds ++ [{ Kind := CmdKind.NavActivate }] }

/-- Append wrapper `imgui_test_engine_script_nav_input` from script_tests.cpp:
null handle is a no-op, null strings are stored as the empty string, one
`NavInput` command is appended at the end of the buffer. -/
def imgui_test_engine_script_nav_input (script : Option ImGuiTestEngineScript) :
    Option ImGuiTestEngineScript :=
  match script with
  | none => none
  | some s => some { s with Cmds := s.Cmds ++ [{ Kind := CmdKind.NavInput }] }

/-- Append wrapper `imgui_test_engine_script_window_close` from script_tests.cpp:
null handle is a no-op, null strings are stored as the empty string, one
`WindowClose` command is appended at the end of the buffer. -/
def imgui_test_engine_script_window_close (script : Option ImGuiTestEngineScript) (window_ref : Option String) :
    Option ImGuiTestEngineScript :=
  match script with
  | none => none
  | some s => some { s with Cmds := s.Cmds ++ [{ Kind := CmdKind.WindowClose, A := window_ref.getD "" }] }

/-- Append wrapper `imgui_test_engine_script_window_collapse` from script_tests.cpp:
null handle is a no-op, null strings are stored as the empty string, one
`WindowCollapse` command is appended at the end of the buffer. -/
def imgui_test_engine_script_window_collapse (script : Option ImGuiTestEngineScript) (window_ref : Option String) (collapsed : Bool) :
    Option ImGuiTestEngineScript :=
  match script with
  | none => none
  | some s => some { s with Cmds := s.Cmds ++ [{ Kind := CmdKind.WindowCollapse, A := window_ref.getD "", I := if collapsed then 1 else 0 }] }

/-- Append wrapper `imgui_test_engine_script_window_focus` from script_tests.cpp:
null handle is a no-op, null strings are stored as the empty string, one
`WindowFocus` command is appended at the end of the buffer. -/
def imgui_test_engine_script_window_focus (script : Option ImGuiTestEngineScript) (window_ref : Option String) :
    Option ImGuiTestEngineScript :=
  match script with
  | none => none
  | some s => some { s with Cmds := s.Cmds ++ [{ Kind := CmdKind.WindowFocus, A := window_ref.getD "" }] }

/-- Append wrapper `imgui_test_engine_script_window_bring_to_front` from script_tests.cpp:
null handle is a no-op, null strings are stored as the empty string, one
`WindowBringToFront` command is appended at the end of the buffer. -/
def imgui_test_engine_script_window_bring_to_front (script : Option ImGuiTestEngineScript) (window_ref : Option String) :
    Option ImGuiTestEngineScript :=
  match script with
  | none => none
  | some s => some { s with Cmds := s.Cmds ++ [{ Kind := CmdKind.WindowBringToFront, A := window_ref.getD "" }] }

/-- Append wrapper `imgui_test_engine_script_window_move` from script_tests.cpp:
null handle is a no-op, null strings are stored as the empty string, one
`WindowMove` command is appended at the end of the buffer. -/
def imgui_test_engine_script_window_move (script : Option ImGuiTestEngineScript) (window_ref : Option String) (x : Rat) (y : Rat) :
    Option ImGuiTestEngineScript :=
  match script with
  | none => none
  | some s => some { s with Cmds := s.Cmds ++ [{ Kind := CmdKind.WindowMove, A := window_ref.getD "", F := x, G := y }] }

/-- Append wrapper `imgui_test_engine_script_window_resize` from script_tests.cpp:
null handle is a no-op, null strings are stored as the empty string, one
`WindowResize` command is appended at the end of the buffer. -/
def imgui_test_engine_script_window_resize (script : Option ImGuiTestEngineScript) (window_ref : Option String) (w : Rat) (h : Rat) :
    Option ImGuiTestEngineScript :=
  match script with
  | none => none
  | some s => some { s with Cmds := s.Cmds ++ [{ Kind := CmdKind.WindowResize, A := window_ref.getD "", F := w, G := h }] }

/-- Append wrapper `imgui_test_engine_script_sleep` from script_tests.cpp:
null handle is a no-op, null strings are stored as the empty string, one
`Sleep` command is appended at the end of the buffer. -/
def imgui_test_engine_script_sleep (script : Option ImGuiTestEngineScript) (time_in_seconds : Rat) :
    Option ImGuiTestEngineScript :=
  match script with
  | none => none
  | some s => some { s with Cmds := s.Cmds ++ [{ Kind := CmdKind.Sleep, F := time_in_seconds }] }

/-- Append wrapper `imgui_test_engine_script_assert_item_exists` from script_tests.cpp:
null handle is a no-op, null strings are stored as the empty string, one
`AssertItemExists` command is appended at the end of the buffer. -/
def imgui_test_engine_script_assert_item_exists (script : Option ImGuiTestEngineScript) (ref : Option String) :
    Option ImGuiTestEngineScript :=
  match script with
  | none => none
  | some s => some { s with Cmds := s.Cmds ++ [{ Kind := CmdKind.AssertItemExists, A := ref.getD "" }] }

/-- Append wrapper `imgui_test_engine_script_assert_item_visible` from script_tests.cpp:
null handle is a no-op, null strings are stored as the empty string, one
`AssertItemVisible` command is appended at the end of the buffer. -/
def imgui_test_engine_script_assert_item_visible (script : Option ImGuiTestEngineScript) (ref : Option String) :
    Option ImGuiTestEngineScript :=
  match script with
  | none => none
  | some s => some { s with Cmds := s.Cmds ++ [{ Kind := CmdKind.AssertItemVisible, A := ref.getD "" }] }

/-- Append wrapper `imgui_test_engine_script_assert_item_read_int_eq` from script_tests.cpp:
null handle is a no-op, null strings are stored as the empty string, one
`AssertItemReadIntEq` command is appended at the end of the buffer. -/
def imgui_test_engine_script_assert_item_read_int_eq (script : Option ImGuiTestEngineScript) (ref : Option String) (expected : Int) :
    Option ImGuiTestEngineScript :=
  match script with
  | none => none
  | some s => some { s with Cmds := s.Cmds ++ [{ Kind := CmdKind.AssertItemReadIntEq, A := ref.getD "", I := expected }] }

/-- Append wrapper `imgui_test_engine_script_assert_item_read_str_eq` from script_tests.cpp:
null handle is a no-op, null strings are stored as the empty string, one
`AssertItemReadStrEq` command is appended at the end of the buffer. -/
def imgui_test_engine_script_assert_item_read_str_eq (script : Option ImGuiTestEngineScript) (ref : Option String) (expected : Option String) :
    Option ImGuiTestEngineScript :=
  match script with
  | none => none
  | some s => some { s with Cmds := s.Cmds ++ [{ Kind := CmdKind.AssertItemReadStrEq, A := ref.getD "", B := expected.getD "" }] }

/-- Append wrapper `imgui_test_engine_script_assert_item_read_float_eq` from script_tests.cpp:
null handle is a no-op, null strings are stored as the empty string, one
`AssertItemReadFloatEq` command is appended at the end of the buffer. -/
def imgui_test_engine_script_assert_item_read_float_eq (script : Option ImGuiTestEngineScript) (ref : Option String) (expected : Rat) (epsilon : Rat) :
    Option ImGuiTestEngineScript :=
  match script with
  | none => none
  | some s => some { s with Cmds := s.Cmds ++ [{ Kind := CmdKind.AssertItemReadFloatEq, A := ref.getD "", F := expected, G := epsilon }] }

/-- Append wrapper `imgui_test_engine_script_wait_for_item` from script_tests.cpp:
null handle is a no-op, null strings are stored as the empty string, one
`WaitForItem` command is appended at the end of the buffer. -/
def imgui_test_engine_script_wait_for_item (script : Option ImGuiTestEngineScript) (ref : Option String) (max_frames : Int) :
    Option ImGuiTestEngineScript :=
  match script with
  | none => none
  | some s => some { s with Cmds := s.Cmds ++ [{ Kind := CmdKind.WaitForItem, A := ref.getD "", I := max_frames }] }

/-- Append wrapper `imgui_test_engine_script_wait_for_item_visible` from script_tests.cpp:
null handle is a no-op, null strings are stored as the empty string, one
`WaitForItemVisible` command is appended at the end of the buffer. -/
def imgui_test_engine_script_wait_for_item_visible (script : Option ImGuiTestEngineScript) (ref : Option String) (max_frames : Int) :
    Option ImGuiTestEngineScript :=
  match script with
  | none => none
  | some s => some { s with Cmds := s.Cmds ++ [{ Kind := CmdKind.WaitForItemVisible, A := ref.getD "", I := max_frames }] }

/-- Append wrapper `imgui_test_engine_script_assert_item_checked` from script_tests.cpp:
null handle is a no-op, null strings are stored as the empty string, one
`AssertItemChecked` command is appended at the end of the buffer. -/
def imgui_test_engine_script_assert_item_checked (script : Option ImGuiTestEngineScript) (ref : Option String) :
    Option ImGuiTestEngineScript :=
  match script with
  | none => none
  | some s => some { s with Cmds := s.Cmds ++ [{ Kind := CmdKind.AssertItemChecked, A := ref.getD "" }] }

/-- Append wrapper `imgui_test_engine_script_assert_item_opened` from script_tests.cpp:
null handle is a no-op, null strings are stored as the empty string, one
`AssertItemOpened` command is appended at the end of the buffer. -/
def imgui_test_engine_script_assert_item_opened (script : Option ImGuiTestEngineScript) (ref : Option String) :
    Option ImGuiTestEngineScript :=
  match script with
  | none => none
  | some s => some { s with Cmds := s.Cmds ++ [{ Kind := CmdKind.AssertItemOpened, A := ref.getD "" }] }

/-- Append wrapper `imgui_test_engine_script_wait_for_item_checked` from script_tests.cpp:
null handle is a no-op, null strings are stored as the empty string, one
`WaitForItemChecked` command is appended at the end of the buffer. -/
def imgui_test_engine_script_wait_for_item_checked (script : Option ImGuiTestEngineScript) (ref : Option String) (max_frames : Int) :
    Option ImGuiTestEngineScript :=
  match script with
  | none => none
  | some s => some { s with Cmds := s.Cmds ++ [{ Kind := CmdKind.WaitForItemChecked, A := ref.getD "", I := max_frames }] }

/-- Append wrapper `imgui_test_engine_script_wait_for_item_opened` from script_tests.cpp:
null handle is a no-op, null strings are stored as the empty string, one
`WaitForItemOpened` command is appended at the end of the buffer. -/
def imgui_test_engine_script_wait_for_item_opened (script : Option ImGuiTestEngineScript) (ref : Option String) (max_frames : Int) :
    Option ImGuiTestEngineScript :=
  match script with
  | none => none
  | some s => some { s with Cmds := s.Cmds ++ [{ Kind := CmdKind.WaitForItemOpened, A := ref.getD "", I := max_frames }] }

/-- Append wrapper `imgui_test_engine_script_yield` from script_tests.cpp:
null handle is a no-op, null strings are stored as the empty string, one
`Yield` command is appended at the end of the buffer. -/
def imgui_test_engine_script_yield (script : Option ImGuiTestEngineScript) (frames : Int) :
    Option ImGuiTestEngineScript :=
  match script with
  | none => none
  | some s => some { s with Cmds := s.Cmds ++ [{ Kind := CmdKind.Yield, I := frames }] }

/-- Fresh empty buffer, mirroring `imgui_test_engine_script_create`. -/
def imgui_test_engine_script_create : ImGuiTestEngineScript := {}

/-- Per-process shim state outside any one buffer: the set of live script
allocations (by identifier) and the per-engine registry
`g_scripts_by_engine` mapping each engine instance to the scripts
registered against it, in registration order. -/
structure ShimState where
  scripts : List (Nat × ImGuiTestEngineScript) := []
  reg : List (Nat × List Nat) := []
deriving DecidableEq, Repr

/-- First entry with the given key in an association list (the lookup
performed on `g_scripts_by_engine`). -/
def lookupKey {β : Type} : List (Nat × β) → Nat → Option β
  | [], _ => none
  | p :: ps, k => if p.1 = k then some p.2 else lookupKey ps k

/-- Append a value under a key, creating the entry when absent
(`unordered_map::operator[]` followed by `push_back`). -/
def regAdd (r : List (Nat × List Nat)) (e sid : Nat) : List (Nat × List Nat) :=
  if (lookupKey r e).isSome then
    r.map (fun p => if p.1 = e then (p.1, p.2 ++ [sid]) else p)
  else
    r ++ [(e, [sid])]

/-- Engine-teardown cleanup hook `script_free_for_engine`
(script_tests.cpp lines 124-133): when the engine has a registry entry,
delete every script registered against it and erase the entry; otherwise
do nothing. -/
def script_free_for_engine (e : Nat) (st : ShimState) : ShimState :=
  match lookupKey st.reg e with
  | none => st
  | some ids =>
    { scripts := st.scripts.filter (fun p => !(ids.contains p.1))
      reg := st.reg.filter (fun p => !(p.1 == e)) }

/-- Registration `imgui_test_engine_register_script_test`
(script_tests.cpp lines 1642-1662): with any null argument, do nothing;
otherwise store the category on the script, hand the buffer to the
engine's test registry (the engine-side `ImGuiTest` object is external),
and record the script under its engine in `g_scripts_by_engine`.  The
null checks are performed in the source's order (engine, script,
category, name). -/
def imgui_test_engine_register_script_test (engine : Option Nat)
    (category name : Option String) (script : Option Nat)
    (st : ShimState) : ShimState :=
  match engine with
  | none => st
  | some e =>
    match script with
    | none => st
    | some sid =>
      match category with
      | none => st
      | some cat =>
        match name with
        | none => st
        | some _nm =>
          { scripts := st.scripts.map
              (fun p => if p.1 = sid then (p.1, { p.2 with Category := cat }) else p)
            reg := regAdd st.reg e sid }


/-! ### Basic interpreter lemmas -/

/-- A run starting in an error state executes nothing. -/
theorem runCmds_of_errored (env : Env) (cmds : List Cmd) (ctx : Ctx)
    (h : ctx.errored = true) : runCmds env cmds ctx = (ctx, []) := by
  cases cmds with
  | nil => rfl
  | cons c rest => simp [runCmds, h]

/-- If the `WaitForItem` polling loop returned early, it was because a frame
advance flagged an error. -/
theorem waitExistsLoop_abort_errored (env : Env) (a : String) :
    ∀ (n : Nat) (ctx ctx1 : Ctx), waitExistsLoop env a n ctx = (ctx1, true) →
      ctx1.errored = true := by
  intro n
  induction n with
  | zero => intro ctx ctx1 h; simp [waitExistsLoop] at h
  | succ n ih =>
    intro ctx ctx1 h
    simp only [waitExistsLoop] at h
    split at h
    · simp at h
    · by_cases he : (ctxYield1 env ctx).errored
      · simp [he] at h
        rw [← h]; exact he
      · simp [he] at h
        exact ih _ _ h

/-- If a status-flag polling loop reported `aborted`, the returned context
carries the error flag. -/
theorem waitFlagLoop_aborted_errored (env : Env) (a : String) (bit : Nat) :
    ∀ (n : Nat) (ctx ctx1 : Ctx),
      waitFlagLoop env a bit n ctx = (ctx1, WaitOut.aborted) →
      ctx1.errored = true := by
  intro n
  induction n with
  | zero => intro ctx ctx1 h; simp [waitFlagLoop] at h
  | succ n ih =>
    intro ctx ctx1 h
    simp only [waitFlagLoop] at h
    split at h
    · simp at h
    · by_cases he : (ctxYield1 env ctx).errored
      · simp [he] at h
        rw [← h]; exact he
      · simp [he] at h
        exact ih _ _ h

/-- Whenever a command's case body returns early from the run, it has left
the context in an error state. -/
theorem execCmd_abort_errored (env : Env) (ctx : Ctx) (c : Cmd)
    (h : (execCmd env ctx c).2 = true) : (execCmd env ctx c).1.errored = true := by
  obtain ⟨k, a, b, i, j, f, g⟩ := c
  cases k
  case AssertItemExists =>
    simp only [execCmd] at h ⊢
    repeat' split at h
    all_goals simp_all [raiseError]
  case AssertItemVisible =>
    simp only [execCmd] at h ⊢
    repeat' split at h
    all_goals simp_all [raiseError]
  case AssertItemReadIntEq =>
    simp only [execCmd] at h ⊢
    repeat' split at h
    all_goals simp_all [raiseError]
  case AssertItemReadStrEq =>
    simp only [execCmd] at h ⊢
    repeat' split at h
    all_goals simp_all [raiseError]
  case AssertItemReadFloatEq =>
    simp only [execCmd] at h ⊢
    repeat' split at h
    all_goals try simp_all [raiseError]
    all_goals (repeat' split)
    all_goals first
    | rfl
    | (exfalso; linarith)
  case AssertItemChecked =>
    simp only [execCmd] at h ⊢
    repeat' split at h
    all_goals simp_all [raiseError]
  case AssertItemOpened =>
    simp only [execCmd] at h ⊢
    repeat' split at h
    all_goals simp_all [raiseError]
  case WaitForItem =>
    simp only [execCmd] at h ⊢
    rcases hw : waitExistsLoop env a (if i < 1 then (1 : Int) else i).toNat ctx
      with ⟨ctx1, ab⟩
    cases ab
    · simp only [Prod.snd, Bool.false_eq_true, if_false] at h ⊢
      repeat' split at h
      all_goals simp_all [raiseError]
    · simpa using waitExistsLoop_abort_errored env a _ ctx ctx1 hw
  case WaitForItemVisible =>
    simp only [execCmd] at h ⊢
    rcases hw : waitFlagLoop env a ImGuiItemStatusFlags_Visible
        (if i < 1 then (1 : Int) else i).toNat ctx with ⟨ctx1, out⟩
    rw [hw] at h
    cases out
    · exact Bool.noConfusion h
    · exact waitFlagLoop_aborted_errored env a _ _ ctx ctx1 hw
    · rfl
  case WaitForItemChecked =>
    simp only [execCmd] at h ⊢
    rcases hw : waitFlagLoop env a ImGuiItemStatusFlags_Checked
        (if i < 1 then (1 : Int) else i).toNat ctx with ⟨ctx1, out⟩
    rw [hw] at h
    cases out
    · exact Bool.noConfusion h
    · exact waitFlagLoop_aborted_errored env a _ _ ctx ctx1 hw
    · rfl
  case WaitForItemOpened =>
    simp only [execCmd] at h ⊢
    rcases hw : waitFlagLoop env a ImGuiItemStatusFlags_Opened
        (if i < 1 then (1 : Int) else i).toNat ctx with ⟨ctx1, out⟩
    rw [hw] at h
    cases out
    · exact Bool.noConfusion h
    · exact waitFlagLoop_aborted_errored env a _ _ ctx ctx1 hw
    · rfl
  all_goals simp [execCmd] at h

/-- Once a run of a command sequence ends in an error state, appending more
commands changes nothing: the appended commands never execute. -/
theorem runCmds_app_of_errored (env : Env) :
    ∀ (pre post : List Cmd) (ctx : Ctx),
      (runCmds env pre ctx).1.errored = true →
      runCmds env (pre ++ post) ctx = runCmds env pre ctx := by
  intro pre
  induction pre with
  | nil =>
    intro post ctx h
    simp only [runCmds] at h
    simp only [List.nil_append, runCmds]
    exact runCmds_of_errored env post ctx h
  | cons c rest ih =>
    intro post ctx h
    by_cases hc : ctx.errored
    · simp [runCmds, hc]
    · by_cases hr : (execCmd env ctx c).2
      · simp [runCmds, hc, hr] at h ⊢
      · simp only [runCmds, hc, hr, Bool.false_eq_true, if_false,
          List.cons_append] at h ⊢
        simp only [List.append_eq]
        rw [ih post _ h]

/-- The executed commands always form an initial segment of the buffer, in
buffer order. -/
theorem runCmds_trace_initial (env : Env) :
    ∀ (cmds : List Cmd) (ctx : Ctx),
      ∃ rest, (runCmds env cmds ctx).2 ++ rest = cmds := by
  intro cmds
  induction cmds with
  | nil => intro ctx; exact ⟨[], rfl⟩
  | cons c cs ih =>
    intro ctx
    by_cases hc : ctx.errored
    · exact ⟨c :: cs, by simp [runCmds, hc]⟩
    · by_cases hr : (execCmd env ctx c).2
      · exact ⟨cs, by simp [runCmds, hc, hr]⟩
      · obtain ⟨rest, hrest⟩ := ih (execCmd env ctx c).1
        exact ⟨rest, by simp [runCmds, hc, hr, hrest]⟩

/-- A run that starts clean and ends clean has executed the entire buffer. -/
theorem runCmds_complete (env : Env) :
    ∀ (cmds : List Cmd) (ctx : Ctx), ctx.errored = false →
      (runCmds env cmds ctx).1.errored = false →
      (runCmds env cmds ctx).2 = cmds := by
  intro cmds
  induction cmds with
  | nil => intro ctx _ _; rfl
  | cons c cs ih =>
    intro ctx h0 h
    by_cases hr : (execCmd env ctx c).2
    · exfalso
      have habort := execCmd_abort_errored env ctx c hr
      simp only [runCmds, h0, Bool.false_eq_true, if_false, hr, if_true] at h
      rw [habort] at h
      simp at h
    · by_cases h1 : (execCmd env ctx c).1.errored
      · exfalso
        simp only [runCmds, h0, Bool.false_eq_true, if_false, hr] at h
        rw [runCmds_of_errored env cs _ h1] at h
        simp [h1] at h
      · have h1f : (execCmd env ctx c).1.errored = false := by
          simpa using h1
        simp only [runCmds, h0, Bool.false_eq_true, if_false, hr] at h ⊢
        have hfull := ih (execCmd env ctx c).1 h1f (by simpa using h)
        simp [hfull]


/-! ### Claim C1 -/

/-- C1: commands are interpreted strictly in append order (the executed
commands are always an initial segment of the buffer); a run that starts in
an error state executes nothing; once the run of a prefix of the buffer has
flagged an error, the commands appended after that prefix never execute
(short-circuit); and a run in which the context never enters an error state
executes every command of the buffer to the end. -/
theorem C1_replay_order_and_short_circuit :
    ∀ (env : Env) (cmds pre post : List Cmd) (ctx : Ctx),
      (∃ rest, (runCmds env cmds ctx).2 ++ rest = cmds)
      ∧ (ctx.errored = true → runCmds env cmds ctx = (ctx, []))
      ∧ ((runCmds env pre ctx).1.errored = true →
          runCmds env (pre ++ post) ctx = runCmds env pre ctx)
      ∧ (ctx.errored = false → (runCmds env cmds ctx).1.errored = false →
          (runCmds env cmds ctx).2 = cmds) := by
  intro env cmds pre post ctx
  exact ⟨runCmds_trace_initial env cmds ctx,
    runCmds_of_errored env cmds ctx,
    runCmds_app_of_errored env pre post ctx,
    runCmds_complete env cmds ctx⟩

/-- Demonstration environment: no item ever resolves, no frame advance
fails, delegated calls leave the context untouched. -/
def envInert : Env where
  itemExists := fun _ _ => false
  itemInfo := fun _ _ => { ID := 0, StatusFlags := 0 }
  readInt := fun _ _ => 0
  readStr := fun _ _ => none
  readFloat := fun _ _ => 0
  frameErr := fun _ => false
  delegate := fun c _ => c

/-- Witness for C1 at a concrete input: a clean two-command run (a `SetRef`
followed by a `Yield`) under the inert environment stays clean and executes
both commands; and a failing `AssertItemExists` at position 0 stops a
three-command buffer after one command. -/
theorem C1_replay_order_and_short_circuit_witness :
    Ctx.errored {} = false
    ∧ (runCmds envInert [{ Kind := CmdKind.SetRef, A := "w" },
        { Kind := CmdKind.Yield, I := 2 }] {}).1.errored = false
    ∧ (runCmds envInert [{ Kind := CmdKind.SetRef, A := "w" },
        { Kind := CmdKind.Yield, I := 2 }] {}).2
        = [{ Kind := CmdKind.SetRef, A := "w" }, { Kind := CmdKind.Yield, I := 2 }]
    ∧ (runCmds envInert
        ([{ Kind := CmdKind.AssertItemExists, A := "gone" }] ++
         [{ Kind := CmdKind.ItemClick, A := "b" }, { Kind := CmdKind.Yield, I := 1 }]) {})
      = runCmds envInert [{ Kind := CmdKind.AssertItemExists, A := "gone" }] {} :=
  ⟨by decide,
   by decide,
   (C1_replay_order_and_short_circuit envInert
      [{ Kind := CmdKind.SetRef, A := "w" }, { Kind := CmdKind.Yield, I := 2 }]
      [] [] {}).2.2.2 (by decide) (by decide),
   (C1_replay_order_and_short_circuit envInert []
      [{ Kind := CmdKind.AssertItemExists, A := "gone" }]
      [{ Kind := CmdKind.ItemClick, A := "b" }, { Kind := CmdKind.Yield, I := 1 }]
      {}).2.2.1 (by decide)⟩


/-! ### Claim C2 -/

/-- Union of the three status bits the wait/assert commands test. -/
def flagsAll : Nat :=
  ImGuiItemStatusFlags_Visible ||| ImGuiItemStatusFlags_Checked |||
    ImGuiItemStatusFlags_Opened

/-- Threshold environment: every locator resolves (and is visible, checked
and opened) from simulated frame `k` on and not before; frame advances never
fail; delegated calls leave the context untouched. -/
def envTh (k : Nat) : Env where
  itemExists := fun f _ => decide (k ≤ f)
  itemInfo := fun f _ =>
    if k ≤ f then { ID := 1, StatusFlags := flagsAll }
    else { ID := 0, StatusFlags := 0 }
  readInt := fun _ _ => 0
  readStr := fun _ _ => none
  readFloat := fun _ _ => 0
  frameErr := fun _ => false
  delegate := fun c _ => c

/-- Start-of-run context: clean, frame 0, empty reference path, no errors. -/
def ctx0 : Ctx := {}

/-- In the threshold environment the `WaitForItem` polling loop with budget
`n` stops at the first frame at or after the start where the item resolves,
advancing at most `n` frames, and never aborts. -/
theorem waitExistsLoop_envTh (k : Nat) (a : String) :
    ∀ (n : Nat) (ctx : Ctx), ctx.errored = false →
      waitExistsLoop (envTh k) a n ctx
        = ({ ctx with frame := max ctx.frame (min (ctx.frame + n) k) }, false) := by
  intro n
  induction n with
  | zero =>
    intro ctx h
    have harith : max ctx.frame (min (ctx.frame + 0) k) = ctx.frame := by omega
    simp [waitExistsLoop, harith]
  | succ n ih =>
    intro ctx h
    by_cases hk : k ≤ ctx.frame
    · have hex : (envTh k).itemExists ctx.frame a = true := by
        simp [envTh, hk]
      have harith : max ctx.frame (min (ctx.frame + (n + 1)) k) = ctx.frame := by
        omega
      simp [waitExistsLoop, hex, harith]
    · have hex : (envTh k).itemExists ctx.frame a = false := by
        simp only [envTh, decide_eq_false_iff_not]
        omega
      have hy : ctxYield1 (envTh k) ctx = { ctx with frame := ctx.frame + 1 } := by
        simp [ctxYield1, envTh]
      have harith : max (ctx.frame + 1) (min (ctx.frame + 1 + n) k)
          = max ctx.frame (min (ctx.frame + (n + 1)) k) := by omega
      have ih1 := ih { ctx with frame := ctx.frame + 1 } h
      dsimp only at ih1
      simp only [waitExistsLoop, hex, Bool.false_eq_true, if_false, hy]
      rw [if_neg (by simp [h])]
      rw [ih1, harith]

/-- In the threshold environment a status-flag polling loop with budget `n`
advances like the existence loop, but reports success only when the item
becomes eligible strictly before the budget runs out: the predicate is
sampled only at the start of each of the `n` iterations, never after the
final frame advance. -/
theorem waitFlagLoop_envTh (k : Nat) (a : String) (bit : Nat)
    (hbit : flagsAll &&& bit ≠ 0) :
    ∀ (n : Nat) (ctx : Ctx), ctx.errored = false →
      waitFlagLoop (envTh k) a bit n ctx
        = ({ ctx with frame := max ctx.frame (min (ctx.frame + n) k) },
           if 0 < n ∧ k < ctx.frame + n then WaitOut.ok else WaitOut.exhausted) := by
  intro n
  induction n with
  | zero =>
    intro ctx h
    have harith : max ctx.frame (min (ctx.frame + 0) k) = ctx.frame := by omega
    have hout : (if 0 < 0 ∧ k < ctx.frame + 0 then WaitOut.ok else WaitOut.exhausted)
        = WaitOut.exhausted := by simp
    simp [waitFlagLoop, harith, hout]
  | succ n ih =>
    intro ctx h
    by_cases hk : k ≤ ctx.frame
    · have hinfo : (envTh k).itemInfo ctx.frame a
          = { ID := 1, StatusFlags := flagsAll } := by
        simp [envTh, hk]
      have harith : max ctx.frame (min (ctx.frame + (n + 1)) k) = ctx.frame := by
        omega
      have hcond : ((envTh k).itemInfo ctx.frame a).ID ≠ 0 ∧
          ((envTh k).itemInfo ctx.frame a).StatusFlags &&& bit ≠ 0 := by
        rw [hinfo]
        exact ⟨by simp, hbit⟩
      simp only [waitFlagLoop]
      rw [if_pos hcond, harith]
      rw [if_pos (show 0 < n + 1 ∧ k < ctx.frame + (n + 1) from ⟨by omega, by omega⟩)]
    · have hinfo : (envTh k).itemInfo ctx.frame a
          = { ID := 0, StatusFlags := 0 } := by
        simp only [envTh, ite_eq_right_iff]
        omega
      have hy : ctxYield1 (envTh k) ctx = { ctx with frame := ctx.frame + 1 } := by
        simp [ctxYield1, envTh]
      have hcond : ¬(((envTh k).itemInfo ctx.frame a).ID ≠ 0 ∧
          ((envTh k).itemInfo ctx.frame a).StatusFlags &&& bit ≠ 0) := by
        rw [hinfo]
        simp
      have ih1 := ih { ctx with frame := ctx.frame + 1 } h
      dsimp only at ih1
      simp only [waitFlagLoop]
      rw [if_neg hcond]
      simp only [hy]
      rw [if_neg (by simp [h])]
      rw [ih1]
      have harith : max (ctx.frame + 1) (min (ctx.frame + 1 + n) k)
          = max ctx.frame (min (ctx.frame + (n + 1)) k) := by omega
      rw [harith]
      have hout : (if 0 < n ∧ k < ctx.frame + 1 + n then WaitOut.ok
          else WaitOut.exhausted)
          = (if 0 < n + 1 ∧ k < ctx.frame + (n + 1) then WaitOut.ok
             else WaitOut.exhausted) := by
        split_ifs with hA hB
        · rfl
        · exfalso; omega
        · exfalso; omega
        · rfl
      rw [hout]


theorem ctx0_errored : ctx0.errored = false := rfl

theorem ctx0_frame : ctx0.frame = 0 := rfl

/-- Value of the frame counter after a wait loop with budget `n` in the
threshold environment, started at frame 0. -/
theorem envTh_loop_frame (k n : Nat) (h : k ≤ n) :
    max ctx0.frame (min (ctx0.frame + n) k) = k := by
  rw [ctx0_frame]; omega

/-- `WaitForItem` in the threshold environment, within budget: when the item
first resolves after `k ≤ N` frame advances (`N` the coerced budget), the
command succeeds after advancing exactly `k` frames and flags nothing. -/
theorem execCmd_WaitForItem_envTh_success (k : Nat) (m : Int) (a : String)
    (h : (k : Int) ≤ if m < 1 then 1 else m) :
    execCmd (envTh k) ctx0 { Kind := CmdKind.WaitForItem, A := a, I := m }
      = ({ frame := k }, false) := by
  have hk : k ≤ (if m < 1 then (1 : Int) else m).toNat := by
    by_cases hm : m < 1
    · simp only [if_pos hm] at h ⊢; omega
    · simp only [if_neg hm] at h ⊢; omega
  simp only [execCmd]
  rw [waitExistsLoop_envTh k a _ ctx0 rfl]
  dsimp only
  rw [envTh_loop_frame k _ hk]
  simp [envTh, ctx0]

/-- `WaitForItem` in the threshold environment, over budget: when the item
only resolves after more than the coerced budget `N` of frame advances, the
command advances exactly `N` frames and flags a timeout error naming the
locator and the frame budget. -/
theorem execCmd_WaitForItem_envTh_timeout (k : Nat) (m : Int) (a : String)
    (h : (if m < 1 then 1 else m) < (k : Int)) :
    execCmd (envTh k) ctx0 { Kind := CmdKind.WaitForItem, A := a, I := m }
      = ({ errored := true, frame := (if m < 1 then (1 : Int) else m).toNat,
           errors := [ErrMsg.timeoutItem a (if m < 1 then 1 else m) ""] }, true) := by
  have hk : (if m < 1 then (1 : Int) else m).toNat < k := by
    by_cases hm : m < 1
    · simp only [if_pos hm] at h ⊢; omega
    · simp only [if_neg hm] at h ⊢; omega
  simp only [execCmd]
  rw [waitExistsLoop_envTh k a _ ctx0 rfl]
  dsimp only
  have hX : max ctx0.frame
      (min (ctx0.frame + (if m < 1 then (1 : Int) else m).toNat) k)
      = (if m < 1 then (1 : Int) else m).toNat := by
    rw [ctx0_frame]; omega
  rw [hX]
  simp only [envTh, ctx0, raiseError]
  simp
  omega


/-- `WaitForItemVisible` in the threshold environment, strictly within budget:
when the item first carries the bit after `k < N` frame advances (`N` the
coerced budget), the command succeeds after advancing exactly `k` frames. -/
theorem execCmd_WaitForItemVisible_envTh_success (k : Nat) (m : Int) (a : String)
    (h : (k : Int) < if m < 1 then 1 else m) :
    execCmd (envTh k) ctx0 { Kind := CmdKind.WaitForItemVisible, A := a, I := m }
      = ({ frame := k }, false) := by
  have hk : k < (if m < 1 then (1 : Int) else m).toNat := by
    by_cases hm : m < 1
    · simp only [if_pos hm] at h ⊢; omega
    · simp only [if_neg hm] at h ⊢; omega
  have hbit : flagsAll &&& ImGuiItemStatusFlags_Visible ≠ 0 := by decide
  simp only [execCmd]
  rw [waitFlagLoop_envTh k a _ hbit _ ctx0 rfl]
  rw [if_pos (show 0 < (if m < 1 then (1 : Int) else m).toNat ∧
      k < ctx0.frame + (if m < 1 then (1 : Int) else m).toNat from by
    rw [ctx0_frame]
    exact ⟨by omega, by omega⟩)]
  rw [envTh_loop_frame k _ (Nat.le_of_lt hk)]
  rfl

/-- `WaitForItemVisible` in the threshold environment, at or over budget: when
the item first carries the bit only after `N` or more frame advances (`N`
the coerced budget), the command advances exactly `N` frames and flags a
timeout error naming the locator and the frame budget: the predicate is not
re-checked after the final advance, so first resolution exactly at the
`N`-th advance still times out. -/
theorem execCmd_WaitForItemVisible_envTh_timeout (k : Nat) (m : Int) (a : String)
    (h : (if m < 1 then 1 else m) ≤ (k : Int)) :
    execCmd (envTh k) ctx0 { Kind := CmdKind.WaitForItemVisible, A := a, I := m }
      = ({ errored := true, frame := (if m < 1 then (1 : Int) else m).toNat,
           errors := [ErrMsg.timeoutItemVisible a (if m < 1 then 1 else m) ""] }, true) := by
  have hk : (if m < 1 then (1 : Int) else m).toNat ≤ k := by
    by_cases hm : m < 1
    · simp only [if_pos hm] at h ⊢; omega
    · simp only [if_neg hm] at h ⊢; omega
  have hbit : flagsAll &&& ImGuiItemStatusFlags_Visible ≠ 0 := by decide
  simp only [execCmd]
  rw [waitFlagLoop_envTh k a _ hbit _ ctx0 rfl]
  rw [if_neg (show ¬(0 < (if m < 1 then (1 : Int) else m).toNat ∧
      k < ctx0.frame + (if m < 1 then (1 : Int) else m).toNat) from by
    rw [ctx0_frame]
    omega)]
  have hX : max ctx0.frame
      (min (ctx0.frame + (if m < 1 then (1 : Int) else m).toNat) k)
      = (if m < 1 then (1 : Int) else m).toNat := by
    rw [ctx0_frame]; omega
  rw [hX]
  simp [raiseError, ctx0]

/-- `WaitForItemChecked` in the threshold environment, strictly within budget:
when the item first carries the bit after `k < N` frame advances (`N` the
coerced budget), the command succeeds after advancing exactly `k` frames. -/
theorem execCmd_WaitForItemChecked_envTh_success (k : Nat) (m : Int) (a : String)
    (h : (k : Int) < if m < 1 then 1 else m) :
    execCmd (envTh k) ctx0 { Kind := CmdKind.WaitForItemChecked, A := a, I := m }
      = ({ frame := k }, false) := by
  have hk : k < (if m < 1 then (1 : Int) else m).toNat := by
    by_cases hm : m < 1
    · simp only [if_pos hm] at h ⊢; omega
    · simp only [if_neg hm] at h ⊢; omega
  have hbit : flagsAll &&& ImGuiItemStatusFlags_Checked ≠ 0 := by decide
  simp only [execCmd]
  rw [waitFlagLoop_envTh k a _ hbit _ ctx0 rfl]
  rw [if_pos (show 0 < (if m < 1 then (1 : Int) else m).toNat ∧
      k < ctx0.frame + (if m < 1 then (1 : Int) else m).toNat from by
    rw [ctx0_frame]
    exact ⟨by omega, by omega⟩)]
  rw [envTh_loop_frame k _ (Nat.le_of_lt hk)]
  rfl

/-- `WaitForItemChecked` in the threshold environment, at or over budget: when
the item first carries the bit only after `N` or more frame advances (`N`
the coerced budget), the command advances exactly `N` frames and flags a
timeout error naming the locator and the frame budget: the predicate is not
re-checked after the final advance, so first resolution exactly at the
`N`-th advance still times out. -/
theorem execCmd_WaitForItemChecked_envTh_timeout (k : Nat) (m : Int) (a : String)
    (h : (if m < 1 then 1 else m) ≤ (k : Int)) :
    execCmd (envTh k) ctx0 { Kind := CmdKind.WaitForItemChecked, A := a, I := m }
      = ({ errored := true, frame := (if m < 1 then (1 : Int) else m).toNat,
           errors := [ErrMsg.timeoutItemChecked a (if m < 1 then 1 else m) ""] }, true) := by
  have hk : (if m < 1 then (1 : Int) else m).toNat ≤ k := by
    by_cases hm : m < 1
    · simp only [if_pos hm] at h ⊢; omega
    · simp only [if_neg hm] at h ⊢; omega
  have hbit : flagsAll &&& ImGuiItemStatusFlags_Checked ≠ 0 := by decide
  simp only [execCmd]
  rw [waitFlagLoop_envTh k a _ hbit _ ctx0 rfl]
  rw [if_neg (show ¬(0 < (if m < 1 then (1 : Int) else m).toNat ∧
      k < ctx0.frame + (if m < 1 then (1 : Int) else m).toNat) from by
    rw [ctx0_frame]
    omega)]
  have hX : max ctx0.frame
      (min (ctx0.frame + (if m < 1 then (1 : Int) else m).toNat) k)
      = (if m < 1 then (1 : Int) else m).toNat := by
    rw [ctx0_frame]; omega
  rw [hX]
  simp [raiseError, ctx0]

/-- `WaitForItemOpened` in the threshold environment, strictly within budget:
when the item first carries the bit after `k < N` frame advances (`N` the
coerced budget), the command succeeds after advancing exactly `k` frames. -/
theorem execCmd_WaitForItemOpened_envTh_success (k : Nat) (m : Int) (a : String)
    (h : (k : Int) < if m < 1 then 1 else m) :
    execCmd (envTh k) ctx0 { Kind := CmdKind.WaitForItemOpened, A := a, I := m }
      = ({ frame := k }, false) := by
  have hk : k < (if m < 1 then (1 : Int) else m).toNat := by
    by_cases hm : m < 1
    · simp only [if_pos hm] at h ⊢; omega
    · simp only [if_neg hm] at h ⊢; omega
  have hbit : flagsAll &&& ImGuiItemStatusFlags_Opened ≠ 0 := by decide
  simp only [execCmd]
  rw [waitFlagLoop_envTh k a _ hbit _ ctx0 rfl]
  rw [if_pos (show 0 < (if m < 1 then (1 : Int) else m).toNat ∧
      k < ctx0.frame + (if m < 1 then (1 : Int) else m).toNat from by
    rw [ctx0_frame]
    exact ⟨by omega, by omega⟩)]
  rw [envTh_loop_frame k _ (Nat.le_of_lt hk)]
  rfl

/-- `WaitForItemOpened` in the threshold environment, at or over budget: when
the item first carries the bit only after `N` or more frame advances (`N`
the coerced budget), the command advances exactly `N` frames and flags a
timeout error naming the locator and the frame budget: the predicate is not
re-checked after the final advance, so first resolution exactly at the
`N`-th advance still times out. -/
theorem execCmd_WaitForItemOpened_envTh_timeout (k : Nat) (m : Int) (a : String)
    (h : (if m < 1 then 1 else m) ≤ (k : Int)) :
    execCmd (envTh k) ctx0 { Kind := CmdKind.WaitForItemOpened, A := a, I := m }
      = ({ errored := true, frame := (if m < 1 then (1 : Int) else m).toNat,
           errors := [ErrMsg.timeoutItemOpened a (if m < 1 then 1 else m) ""] }, true) := by
  have hk : (if m < 1 then (1 : Int) else m).toNat ≤ k := by
    by_cases hm : m < 1
    · simp only [if_pos hm] at h ⊢; omega
    · simp only [if_neg hm] at h ⊢; omega
  have hbit : flagsAll &&& ImGuiItemStatusFlags_Opened ≠ 0 := by decide
  simp only [execCmd]
  rw [waitFlagLoop_envTh k a _ hbit _ ctx0 rfl]
  rw [if_neg (show ¬(0 < (if m < 1 then (1 : Int) else m).toNat ∧
      k < ctx0.frame + (if m < 1 then (1 : Int) else m).toNat) from by
    rw [ctx0_frame]
    omega)]
  have hX : max ctx0.frame
      (min (ctx0.frame + (if m < 1 then (1 : Int) else m).toNat) k)
      = (if m < 1 then (1 : Int) else m).toNat := by
    rw [ctx0_frame]; omega
  rw [hX]
  simp [raiseError, ctx0]


/-- C2 counterexample: the claim asserts that every wait-for command whose
predicate first becomes true after `k ≤ N` frame advances succeeds.  For
`WaitForItemVisible` with coerced budget `N = 1` against an item that is
absent at frame 0 and visible from frame 1 (so `k = 1 = N`), the code
performs its one frame advance without re-checking the predicate afterwards
and flags a timeout error instead of succeeding. -/
theorem C2_counterexample_visible_at_budget :
    (((envTh 1).itemInfo 0 "w").ID = 0)
    ∧ (((envTh 1).itemInfo 1 "w").ID ≠ 0
        ∧ ((envTh 1).itemInfo 1 "w").StatusFlags &&& ImGuiItemStatusFlags_Visible ≠ 0)
    ∧ execCmd (envTh 1) ctx0 { Kind := CmdKind.WaitForItemVisible, A := "w", I := 1 }
        = ({ errored := true, frame := 1,
             errors := [ErrMsg.timeoutItemVisible "w" 1 ""] }, true) := by
  refine ⟨?_, ⟨?_, ?_⟩, ?_⟩ <;> decide

/-- C2 (amended): in the threshold environment where the item first becomes
eligible after `k` frame advances, with caller budget `m` coerced to
`N = max m 1`: `WaitForItem` re-checks existence after the loop, so it
succeeds after exactly `k` advances whenever `k ≤ N` and otherwise advances
exactly `N` frames and flags a timeout error naming the locator and the
coerced budget; `WaitForItemVisible` / `WaitForItemChecked` /
`WaitForItemOpened` sample their predicate only before each of the `N` loop
iterations, so they succeed after exactly `k` advances only when `k < N`,
and when `k ≥ N` (including first eligibility exactly at the `N`-th
advance) they advance exactly `N` frames and flag the timeout error. -/
theorem C2_amended_wait_polling :
    ∀ (k : Nat) (m : Int) (a : String),
      ((k : Int) ≤ (if m < 1 then 1 else m) →
        execCmd (envTh k) ctx0 { Kind := CmdKind.WaitForItem, A := a, I := m }
          = ({ frame := k }, false))
      ∧ ((if m < 1 then 1 else m) < (k : Int) →
        execCmd (envTh k) ctx0 { Kind := CmdKind.WaitForItem, A := a, I := m }
          = ({ errored := true, frame := (if m < 1 then (1 : Int) else m).toNat,
               errors := [ErrMsg.timeoutItem a (if m < 1 then 1 else m) ""] }, true))
      ∧ ((k : Int) < (if m < 1 then 1 else m) →
        execCmd (envTh k) ctx0 { Kind := CmdKind.WaitForItemVisible, A := a, I := m }
          = ({ frame := k }, false))
      ∧ ((if m < 1 then 1 else m) ≤ (k : Int) →
        execCmd (envTh k) ctx0 { Kind := CmdKind.WaitForItemVisible, A := a, I := m }
          = ({ errored := true, frame := (if m < 1 then (1 : Int) else m).toNat,
               errors := [ErrMsg.timeoutItemVisible a (if m < 1 then 1 else m) ""] },
             true))
      ∧ ((k : Int) < (if m < 1 then 1 else m) →
        execCmd (envTh k) ctx0 { Kind := CmdKind.WaitForItemChecked, A := a, I := m }
          = ({ frame := k }, false))
      ∧ ((if m < 1 then 1 else m) ≤ (k : Int) →
        execCmd (envTh k) ctx0 { Kind := CmdKind.WaitForItemChecked, A := a, I := m }
          = ({ errored := true, frame := (if m < 1 then (1 : Int) else m).toNat,
               errors := [ErrMsg.timeoutItemChecked a (if m < 1 then 1 else m) ""] },
             true))
      ∧ ((k : Int) < (if m < 1 then 1 else m) →
        execCmd (envTh k) ctx0 { Kind := CmdKind.WaitForItemOpened, A := a, I := m }
          = ({ frame := k }, false))
      ∧ ((if m < 1 then 1 else m) ≤ (k : Int) →
        execCmd (envTh k) ctx0 { Kind := CmdKind.WaitForItemOpened, A := a, I := m }
          = ({ errored := true, frame := (if m < 1 then (1 : Int) else m).toNat,
               errors := [ErrMsg.timeoutItemOpened a (if m < 1 then 1 else m) ""] },
             true)) := by
  intro k m a
  exact ⟨execCmd_WaitForItem_envTh_success k m a,
    execCmd_WaitForItem_envTh_timeout k m a,
    execCmd_WaitForItemVisible_envTh_success k m a,
    execCmd_WaitForItemVisible_envTh_timeout k m a,
    execCmd_WaitForItemChecked_envTh_success k m a,
    execCmd_WaitForItemChecked_envTh_timeout k m a,
    execCmd_WaitForItemOpened_envTh_success k m a,
    execCmd_WaitForItemOpened_envTh_timeout k m a⟩

/-- Witness for the amended C2 at the spec's own concrete scenario:
`wait_for_item` with `max_frames = 5` against an item resolvable from the
3rd frame succeeds after exactly 3 advances; against an item resolvable
only from frame 6 it advances exactly 5 frames and reports the timeout
naming `max_frames = 5`; and `wait_for_item_visible` with the item visible
from frame 2 succeeds after exactly 2 advances. -/
theorem C2_amended_wait_polling_witness :
    execCmd (envTh 3) ctx0 { Kind := CmdKind.WaitForItem, A := "w", I := 5 }
      = ({ frame := 3 }, false)
    ∧ execCmd (envTh 6) ctx0 { Kind := CmdKind.WaitForItem, A := "w", I := 5 }
      = ({ errored := true, frame := 5,
           errors := [ErrMsg.timeoutItem "w" 5 ""] }, true)
    ∧ execCmd (envTh 2) ctx0 { Kind := CmdKind.WaitForItemVisible, A := "w", I := 5 }
      = ({ frame := 2 }, false) :=
  ⟨(C2_amended_wait_polling 3 5 "w").1 (by decide),
   (C2_amended_wait_polling 6 5 "w").2.1 (by decide),
   (C2_amended_wait_polling 2 5 "w").2.2.1 (by decide)⟩


/-! ### Claim C3 -/

/-- The sign-flip the source performs on `diff` and `eps` computes the
absolute value. -/
theorem ratAbs_ite (x : Rat) : (if x < 0 then -x else x) = |x| := by
  rcases lt_or_ge x 0 with hx | hx
  · rw [if_pos hx, abs_of_neg hx]
  · rw [if_neg (not_lt.2 hx), abs_of_nonneg hx]

/-- C3: `AssertItemReadFloatEq` on an existing item succeeds — leaving the
context untouched and letting the run continue — exactly when
`|got - expected| ≤ |epsilon|`, taking the absolute value of the
caller-supplied epsilon, with the boundary case included; on mismatch it
flags an error carrying both the actual and the expected value. -/
theorem C3_assert_item_read_float_eq :
    ∀ (env : Env) (ctx : Ctx) (a : String) (e eps : Rat),
      env.itemExists ctx.frame a = true →
      ((|env.readFloat ctx.frame a - e| ≤ |eps| →
        execCmd env ctx
          { Kind := CmdKind.AssertItemReadFloatEq, A := a, F := e, G := eps }
          = (ctx, false))
      ∧ (|eps| < |env.readFloat ctx.frame a - e| →
        execCmd env ctx
          { Kind := CmdKind.AssertItemReadFloatEq, A := a, F := e, G := eps }
          = (raiseError ctx (ErrMsg.readFloatMismatch a
              (env.readFloat ctx.frame a) e |eps| ctx.RefStr), true))) := by
  intro env ctx a e eps hex
  constructor
  · intro hle
    simp only [execCmd, hex, Bool.not_true, Bool.false_eq_true, if_false]
    rw [ratAbs_ite, ratAbs_ite]
    rw [if_neg (not_lt.2 hle)]
  · intro hgt
    simp only [execCmd, hex, Bool.not_true, Bool.false_eq_true, if_false]
    rw [ratAbs_ite, ratAbs_ite]
    rw [if_pos hgt]

/-- Read-back environment: every locator resolves at every frame and reads
back the float value `v`. -/
def envFloat (v : Rat) : Env :=
  { envInert with
      itemExists := fun _ _ => true
      readFloat := fun _ _ => v }

/-- Witness for C3 at the spec's concrete numbers: expected `1.0`, epsilon
`0.001`; read-back `1.0005` succeeds, read-back `1.01` fails carrying actual
and expected, and the boundary read-back `1.001` (where `|diff| = epsilon`)
succeeds. -/
theorem C3_assert_item_read_float_eq_witness :
    execCmd (envFloat 1.0005) ctx0
      { Kind := CmdKind.AssertItemReadFloatEq, A := "w", F := 1, G := 0.001 }
      = (ctx0, false)
    ∧ execCmd (envFloat 1.01) ctx0
      { Kind := CmdKind.AssertItemReadFloatEq, A := "w", F := 1, G := 0.001 }
      = (raiseError ctx0 (ErrMsg.readFloatMismatch "w"
          ((envFloat 1.01).readFloat ctx0.frame "w") 1 |0.001| ctx0.RefStr), true)
    ∧ execCmd (envFloat 1.001) ctx0
      { Kind := CmdKind.AssertItemReadFloatEq, A := "w", F := 1, G := 0.001 }
      = (ctx0, false) :=
  ⟨(C3_assert_item_read_float_eq (envFloat 1.0005) ctx0 "w" 1 0.001 (by decide)).1
      (by rw [abs_of_nonneg, abs_of_nonneg] <;> norm_num [envFloat, envInert]),
   (C3_assert_item_read_float_eq (envFloat 1.01) ctx0 "w" 1 0.001 (by decide)).2
      (by rw [abs_of_nonneg, abs_of_nonneg] <;> norm_num [envFloat, envInert]),
   (C3_assert_item_read_float_eq (envFloat 1.001) ctx0 "w" 1 0.001 (by decide)).1
      (by rw [abs_of_nonneg, abs_of_nonneg] <;> norm_num [envFloat, envInert])⟩

/-! ### Claim C4 -/

/-- C4: every wait-for command coerces a caller-supplied frame budget
`m ≤ 0` to 1 before polling: it behaves exactly as with budget 1; in
particular `WaitForItem` still checks the predicate once, and if the item
already resolves the command succeeds without advancing a frame. -/
theorem C4_budget_coerced_to_one :
    ∀ (env : Env) (ctx : Ctx) (a : String) (m : Int), m ≤ 0 →
      (execCmd env ctx { Kind := CmdKind.WaitForItem, A := a, I := m }
        = execCmd env ctx { Kind := CmdKind.WaitForItem, A := a, I := 1 })
      ∧ (execCmd env ctx { Kind := CmdKind.WaitForItemVisible, A := a, I := m }
        = execCmd env ctx { Kind := CmdKind.WaitForItemVisible, A := a, I := 1 })
      ∧ (execCmd env ctx { Kind := CmdKind.WaitForItemChecked, A := a, I := m }
        = execCmd env ctx { Kind := CmdKind.WaitForItemChecked, A := a, I := 1 })
      ∧ (execCmd env ctx { Kind := CmdKind.WaitForItemOpened, A := a, I := m }
        = execCmd env ctx { Kind := CmdKind.WaitForItemOpened, A := a, I := 1 })
      ∧ (env.itemExists ctx.frame a = true →
        execCmd env ctx { Kind := CmdKind.WaitForItem, A := a, I := m }
          = (ctx, false)) := by
  intro env ctx a m hm
  have hco : (if m < 1 then (1 : Int) else m) = if (1 : Int) < 1 then 1 else 1 := by
    rw [if_pos (by omega), if_neg (by omega)]
  refine ⟨?_, ?_, ?_, ?_, ?_⟩
  · simp only [execCmd]
    rw [hco]
  · simp only [execCmd]
    rw [hco]
  · simp only [execCmd]
    rw [hco]
  · simp only [execCmd]
    rw [hco]
  · intro hex
    simp only [execCmd]
    rw [if_pos (show m < 1 by omega)]
    simp [waitExistsLoop, hex]

/-- Witness for C4: with an item that already resolves at frame 0,
`wait_for_item` with `max_frames = 0` equals the `max_frames = 1` run and
succeeds with no frame advance. -/
theorem C4_budget_coerced_to_one_witness :
    execCmd (envTh 0) ctx0 { Kind := CmdKind.WaitForItem, A := "w", I := 0 }
      = execCmd (envTh 0) ctx0 { Kind := CmdKind.WaitForItem, A := "w", I := 1 }
    ∧ execCmd (envTh 0) ctx0 { Kind := CmdKind.WaitForItem, A := "w", I := 0 }
      = (ctx0, false) :=
  ⟨(C4_budget_coerced_to_one (envTh 0) ctx0 "w" 0 (by decide)).1,
   (C4_budget_coerced_to_one (envTh 0) ctx0 "w" 0 (by decide)).2.2.2.2 (by decide)⟩


/-! ### Claim C6 -/

/-- A command whose case body raised an error and returned stops the run at
once: the failing command is the last one executed. -/
theorem runCmds_cons_of_abort (env : Env) (ctx ctx1 : Ctx) (c : Cmd)
    (rest : List Cmd) (h0 : ctx.errored = false)
    (h : execCmd env ctx c = (ctx1, true)) :
    runCmds env (c :: rest) ctx = (ctx1, [c]) := by
  simp [runCmds, h0, h]

/-- C6: the structural assertions, run with a clean context.
`AssertItemExists` succeeds iff the locator resolves, else it raises the
structured does-not-exist error naming the locator and no later command in
the buffer executes.  `AssertItemVisible` needs existence and the Visible
status bit; `AssertItemChecked` / `AssertItemOpened` need the `ItemInfo`
id to resolve and the Checked / Opened bit; each failure raises the
structured error naming the locator and stops the run. -/
theorem C6_structural_assertions :
    ∀ (env : Env) (ctx : Ctx) (a : String) (rest : List Cmd),
      ctx.errored = false →
      ((env.itemExists ctx.frame a = true →
        execCmd env ctx { Kind := CmdKind.AssertItemExists, A := a } = (ctx, false))
      ∧ (env.itemExists ctx.frame a = false →
        runCmds env ({ Kind := CmdKind.AssertItemExists, A := a } :: rest) ctx
          = (raiseError ctx (ErrMsg.itemDoesNotExist a ctx.RefStr),
             [{ Kind := CmdKind.AssertItemExists, A := a }]))
      ∧ (env.itemExists ctx.frame a = true →
          (env.itemInfo ctx.frame a).StatusFlags &&& ImGuiItemStatusFlags_Visible ≠ 0 →
        execCmd env ctx { Kind := CmdKind.AssertItemVisible, A := a } = (ctx, false))
      ∧ (env.itemExists ctx.frame a = false →
        runCmds env ({ Kind := CmdKind.AssertItemVisible, A := a } :: rest) ctx
          = (raiseError ctx (ErrMsg.itemDoesNotExist a ctx.RefStr),
             [{ Kind := CmdKind.AssertItemVisible, A := a }]))
      ∧ (env.itemExists ctx.frame a = true →
          (env.itemInfo ctx.frame a).StatusFlags &&& ImGuiItemStatusFlags_Visible = 0 →
        runCmds env ({ Kind := CmdKind.AssertItemVisible, A := a } :: rest) ctx
          = (raiseError ctx (ErrMsg.itemNotVisible a ctx.RefStr),
             [{ Kind := CmdKind.AssertItemVisible, A := a }]))
      ∧ ((env.itemInfo ctx.frame a).ID ≠ 0 →
          (env.itemInfo ctx.frame a).StatusFlags &&& ImGuiItemStatusFlags_Checked ≠ 0 →
        execCmd env ctx { Kind := CmdKind.AssertItemChecked, A := a } = (ctx, false))
      ∧ ((env.itemInfo ctx.frame a).ID = 0 →
        runCmds env ({ Kind := CmdKind.AssertItemChecked, A := a } :: rest) ctx
          = (raiseError ctx (ErrMsg.itemDoesNotExist a ctx.RefStr),
             [{ Kind := CmdKind.AssertItemChecked, A := a }]))
      ∧ ((env.itemInfo ctx.frame a).ID ≠ 0 →
          (env.itemInfo ctx.frame a).StatusFlags &&& ImGuiItemStatusFlags_Checked = 0 →
        runCmds env ({ Kind := CmdKind.AssertItemChecked, A := a } :: rest) ctx
          = (raiseError ctx (ErrMsg.itemNotChecked a ctx.RefStr),
             [{ Kind := CmdKind.AssertItemChecked, A := a }]))
      ∧ ((env.itemInfo ctx.frame a).ID ≠ 0 →
          (env.itemInfo ctx.frame a).StatusFlags &&& ImGuiItemStatusFlags_Opened ≠ 0 →
        execCmd env ctx { Kind := CmdKind.AssertItemOpened, A := a } = (ctx, false))
      ∧ ((env.itemInfo ctx.frame a).ID = 0 →
        runCmds env ({ Kind := CmdKind.AssertItemOpened, A := a } :: rest) ctx
          = (raiseError ctx (ErrMsg.itemDoesNotExist a ctx.RefStr),
             [{ Kind := CmdKind.AssertItemOpened, A := a }]))
      ∧ ((env.itemInfo ctx.frame a).ID ≠ 0 →
          (env.itemInfo ctx.frame a).StatusFlags &&& ImGuiItemStatusFlags_Opened = 0 →
        runCmds env ({ Kind := CmdKind.AssertItemOpened, A := a } :: rest) ctx
          = (raiseError ctx (ErrMsg.itemNotOpened a ctx.RefStr),
             [{ Kind := CmdKind.AssertItemOpened, A := a }]))) := by
  intro env ctx a rest h0
  refine ⟨?_, ?_, ?_, ?_, ?_, ?_, ?_, ?_, ?_, ?_, ?_⟩
  · intro hex
    simp [execCmd, hex]
  · intro hex
    exact runCmds_cons_of_abort env ctx _ _ rest h0 (by simp [execCmd, hex])
  · intro hex hbit
    simp [execCmd, hex, hbit]
  · intro hex
    exact runCmds_cons_of_abort env ctx _ _ rest h0 (by simp [execCmd, hex])
  · intro hex hbit
    exact runCmds_cons_of_abort env ctx _ _ rest h0 (by simp [execCmd, hex, hbit])
  · intro hid hbit
    simp [execCmd, hid, hbit]
  · intro hid
    exact runCmds_cons_of_abort env ctx _ _ rest h0 (by simp [execCmd, hid])
  · intro hid hbit
    exact runCmds_cons_of_abort env ctx _ _ rest h0 (by simp [execCmd, hid, hbit])
  · intro hid hbit
    simp [execCmd, hid, hbit]
  · intro hid
    exact runCmds_cons_of_abort env ctx _ _ rest h0 (by simp [execCmd, hid])
  · intro hid hbit
    exact runCmds_cons_of_abort env ctx _ _ rest h0 (by simp [execCmd, hid, hbit])

/-- Witness for C6: with the item present and fully flagged (threshold 0)
the three assertions succeed; with no item at all, `AssertItemExists`
raises the does-not-exist error and stops a two-command buffer after one
command. -/
theorem C6_structural_assertions_witness :
    execCmd (envTh 0) ctx0 { Kind := CmdKind.AssertItemExists, A := "w" }
      = (ctx0, false)
    ∧ execCmd (envTh 0) ctx0 { Kind := CmdKind.AssertItemChecked, A := "w" }
      = (ctx0, false)
    ∧ runCmds envInert ({ Kind := CmdKind.AssertItemExists, A := "w" }
        :: [{ Kind := CmdKind.ItemClick, A := "b" }]) ctx0
      = (raiseError ctx0 (ErrMsg.itemDoesNotExist "w" ctx0.RefStr),
         [{ Kind := CmdKind.AssertItemExists, A := "w" }]) :=
  ⟨((C6_structural_assertions (envTh 0) ctx0 "w" []) (by decide)).1 (by decide),
   ((C6_structural_assertions (envTh 0) ctx0 "w" []) (by decide)).2.2.2.2.2.1
      (by decide) (by decide),
   ((C6_structural_assertions envInert ctx0 "w"
        [{ Kind := CmdKind.ItemClick, A := "b" }]) (by decide)).2.1 (by decide)⟩

/-! ### Claim C7 -/

/-- When no frame advance fails, advancing `n` frames only increments the
frame counter by `n`: no error is raised and nothing else changes. -/
theorem ctxYieldN_no_frameErr (env : Env) (hfe : ∀ f, env.frameErr f = false) :
    ∀ (n : Nat) (ctx : Ctx), ctxYieldN env ctx n = { ctx with frame := ctx.frame + n } := by
  intro n
  induction n with
  | zero =>
    intro ctx
    show ctx = _
    simp
  | succ n ih =>
    intro ctx
    show ctxYieldN env (ctxYield1 env ctx) n = _
    rw [ih (ctxYield1 env ctx)]
    simp only [ctxYield1, hfe, Bool.false_eq_true, if_false]
    have harith : ctx.frame + 1 + n = ctx.frame + (n + 1) := by omega
    rw [harith]

/-- C7: a `Yield` command hands its frame count unchanged to the context's
frame-advance primitive, which (when no advance fails) advances exactly
that many simulated frames; the command performs no predicate check and
raises no error of its own, and with the error flag already set it does
not execute at all. -/
theorem C7_yield_advances_frames :
    ∀ (env : Env) (ctx : Ctx) (n : Int) (rest : List Cmd),
      ((∀ f, env.frameErr f = false) →
        execCmd env ctx { Kind := CmdKind.Yield, I := n }
          = ({ ctx with frame := ctx.frame + n.toNat }, false))
      ∧ (ctx.errored = true →
        runCmds env ({ Kind := CmdKind.Yield, I := n } :: rest) ctx = (ctx, [])) := by
  intro env ctx n rest
  refine ⟨?_, ?_⟩
  · intro hfe
    simp only [execCmd]
    rw [ctxYieldN_no_frameErr env hfe n.toNat ctx]
  · intro he
    exact runCmds_of_errored env _ ctx he

/-- Witness for C7: `yield(frames = 3)` advances exactly 3 frames from a
clean start and flags nothing; from an errored context it executes
nothing. -/
theorem C7_yield_advances_frames_witness :
    execCmd envInert ctx0 { Kind := CmdKind.Yield, I := 3 }
      = ({ frame := 3 }, false)
    ∧ runCmds envInert [{ Kind := CmdKind.Yield, I := 3 }]
        { errored := true } = ({ errored := true }, []) :=
  ⟨(C7_yield_advances_frames envInert ctx0 3 []).1 (fun _ => rfl),
   (C7_yield_advances_frames envInert { errored := true } 3 []).2 rfl⟩

/-! ### Claim C10 -/

/-- C10: `AssertItemReadStrEq` on an existing item normalizes a null
read-back to the empty string before comparing: when the engine returns no
string the assertion succeeds iff the expected string is empty, when it
returns a string the comparison is exact whole-string equality, and on
mismatch the error carries the normalized actual and the expected value. -/
theorem C10_assert_item_read_str_eq :
    ∀ (env : Env) (ctx : Ctx) (a b : String),
      env.itemExists ctx.frame a = true →
      ((env.readStr ctx.frame a = none →
        (execCmd env ctx { Kind := CmdKind.AssertItemReadStrEq, A := a, B := b }
            = (ctx, false) ↔ b = ""))
      ∧ (∀ s, env.readStr ctx.frame a = some s →
        (execCmd env ctx { Kind := CmdKind.AssertItemReadStrEq, A := a, B := b }
            = (ctx, false) ↔ s = b))
      ∧ ((env.readStr ctx.frame a).getD "" ≠ b →
        execCmd env ctx { Kind := CmdKind.AssertItemReadStrEq, A := a, B := b }
          = (raiseError ctx (ErrMsg.readStrMismatch a
              ((env.readStr ctx.frame a).getD "") b ctx.RefStr), true))) := by
  intro env ctx a b hex
  refine ⟨?_, ?_, ?_⟩
  · intro hnone
    by_cases hb : b = ""
    · subst hb
      simp [execCmd, hex, hnone]
    · simp [execCmd, hex, hnone, hb, Ne.symm hb]
  · intro s hsome
    by_cases hb : s = b
    · subst hb
      simp [execCmd, hex, hsome]
    · simp [execCmd, hex, hsome, hb]
  · intro hne
    simp [execCmd, hex, hne]

/-- Read-back environment for strings: every locator resolves and reads
back `v` (possibly no string at all). -/
def envStr (v : Option String) : Env :=
  { envInert with
      itemExists := fun _ _ => true
      readStr := fun _ _ => v }

/-- Witness for C10: a null read-back compared against expected `""`
succeeds and against `"x"` fails; an exact read-back `"abc"` equals
expected `"abc"`. -/
theorem C10_assert_item_read_str_eq_witness :
    execCmd (envStr none) ctx0
      { Kind := CmdKind.AssertItemReadStrEq, A := "w", B := "" } = (ctx0, false)
    ∧ execCmd (envStr none) ctx0
      { Kind := CmdKind.AssertItemReadStrEq, A := "w", B := "x" }
      = (raiseError ctx0 (ErrMsg.readStrMismatch "w" "" "x" ctx0.RefStr), true)
    ∧ execCmd (envStr (some "abc")) ctx0
      { Kind := CmdKind.AssertItemReadStrEq, A := "w", B := "abc" } = (ctx0, false) :=
  ⟨((C10_assert_item_read_str_eq (envStr none) ctx0 "w" "" (by decide)).1
      (by decide)).2 rfl,
   (C10_assert_item_read_str_eq (envStr none) ctx0 "w" "x" (by decide)).2.2
      (by decide),
   ((C10_assert_item_read_str_eq (envStr (some "abc")) ctx0 "w" "abc"
      (by decide)).2.1 "abc" (by decide)).2 rfl⟩


/-! ### Claim C5 -/

/-- C5: every append wrapper called with a non-null buffer handle appends
exactly one command with its tag and the given parameters at the end of the
buffer, leaves every previously appended command (and the category)
unchanged, stores any null string argument as the empty string, and never
fails or signals an error: the result is always the updated buffer. -/
theorem C5_append_contract :
    ∀ (s : ImGuiTestEngineScript) (r1 r2 : Option String) (i1 i2 : Int)
      (x1 x2 : Rat) (bl : Bool),
      (imgui_test_engine_script_set_ref (some s) r1
        = some { s with Cmds := s.Cmds ++ [{ Kind := CmdKind.SetRef, A := r1.getD "" }] })
      ∧ (imgui_test_engine_script_item_click (some s) r1
        = some { s with Cmds := s.Cmds ++ [{ Kind := CmdKind.ItemClick, A := r1.getD "" }] })
      ∧ (imgui_test_engine_script_item_click_with_button (some s) r1 i1
        = some { s with Cmds := s.Cmds ++ [{ Kind := CmdKind.ItemClickWithButton, A := r1.getD "", I := i1 }] })
      ∧ (imgui_test_engine_script_item_double_click (some s) r1
        = some { s with Cmds := s.Cmds ++ [{ Kind := CmdKind.ItemDoubleClick, A := r1.getD "" }] })
      ∧ (imgui_test_engine_script_item_open (some s) r1
        = some { s with Cmds := s.Cmds ++ [{ Kind := CmdKind.ItemOpen, A := r1.getD "" }] })
      ∧ (imgui_test_engine_script_item_close (some s) r1
        = some { s with Cmds := s.Cmds ++ [{ Kind := CmdKind.ItemClose, A := r1.getD "" }] })
      ∧ (imgui_test_engine_script_item_check (some s) r1
        = some { s with Cmds := s.Cmds ++ [{ Kind := CmdKind.ItemCheck, A := r1.getD "" }] })
      ∧ (imgui_test_engine_script_item_uncheck (some s) r1
        = some { s with Cmds := s.Cmds ++ [{ Kind := CmdKind.ItemUncheck, A := r1.getD "" }] })
      ∧ (imgui_test_engine_script_item_input_int (some s) r1 i1
        = some { s with Cmds := s.Cmds ++ [{ Kind := CmdKind.ItemInputInt, A := r1.getD "", I := i1 }] })
      ∧ (imgui_test_engine_script_item_input_str (some s) r1 r2
        = some { s with Cmds := s.Cmds ++ [{ Kind := CmdKind.ItemInputStr, A := r1.getD "", B := r2.getD "" }] })
      ∧ (imgui_test_engine_script_mouse_move (some s) r1
        = some { s with Cmds := s.Cmds ++ [{ Kind := CmdKind.MouseMove, A := r1.getD "" }] })
      ∧ (imgui_test_engine_script_mouse_move_to_pos (some s) x1 x2
        = some { s with Cmds := s.Cmds ++ [{ Kind := CmdKind.MouseMoveToPos, F := x1, G := x2 }] })
      ∧ (imgui_test_engine_script_mouse_teleport_to_pos (some s) x1 x2
        = some { s with Cmds := s.Cmds ++ [{ Kind := CmdKind.MouseTeleportToPos, F := x1, G := x2 }] })
      ∧ (imgui_test_engine_script_mouse_move_to_void (some s)
        = some { s with Cmds := s.Cmds ++ [{ Kind := CmdKind.MouseMoveToVoid }] })
      ∧ (imgui_test_engine_script_mouse_click (some s) i1
        = some { s with Cmds := s.Cmds ++ [{ Kind := CmdKind.MouseClick, I := i1 }] })
      ∧ (imgui_test_engine_script_mouse_click_multi (some s) i1 i2
        = some { s with Cmds := s.Cmds ++ [{ Kind := CmdKind.MouseClickMulti, I := i1, J := i2 }] })
      ∧ (imgui_test_engine_script_mouse_double_click (some s) i1
        = some { s with Cmds := s.Cmds ++ [{ Kind := CmdKind.MouseDoubleClick, I := i1 }] })
      ∧ (imgui_test_engine_script_mouse_down (some s) i1
        = some { s with Cmds := s.Cmds ++ [{ Kind := CmdKind.MouseDown, I := i1 }] })
      ∧ (imgui_test_engine_script_mouse_up (some s) i1
        = some { s with Cmds := s.Cmds ++ [{ Kind := CmdKind.MouseUp, I := i1 }] })
      ∧ (imgui_test_engine_script_mouse_lift_drag_threshold (some s) i1
        = some { s with Cmds := s.Cmds ++ [{ Kind := CmdKind.MouseLiftDragThreshold, I := i1 }] })
      ∧ (imgui_test_engine_script_mouse_drag_with_delta (some s) x1 x2 i1
        = some { s with Cmds := s.Cmds ++ [{ Kind := CmdKind.MouseDragWithDelta, I := i1, F := x1, G := x2 }] })
      ∧ (imgui_test_engine_script_mouse_click_on_void (some s) i1 i2
        = some { s with Cmds := s.Cmds ++ [{ Kind := CmdKind.MouseClickOnVoid, I := i1, J := i2 }] })
      ∧ (imgui_test_engine_script_mouse_wheel (some s) x1 x2
        = some { s with Cmds := s.Cmds ++ [{ Kind := CmdKind.MouseWheel, F := x1, G := x2 }] })
      ∧ (imgui_test_engine_script_key_down (some s) i1
        = some { s with Cmds := s.Cmds ++ [{ Kind := CmdKind.KeyDown, I := i1 }] })
      ∧ (imgui_test_engine_script_key_up (some s) i1
        = some { s with Cmds := s.Cmds ++ [{ Kind := CmdKind.KeyUp, I := i1 }] })
      ∧ (imgui_test_engine_script_key_press (some s) i1 i2
        = some { s with Cmds := s.Cmds ++ [{ Kind := CmdKind.KeyPress, I := i1, J := i2 }] })
      ∧ (imgui_test_engine_script_key_hold (some s) i1 x1
        = some { s with Cmds := s.Cmds ++ [{ Kind := CmdKind.KeyHold, I := i1, F := x1 }] })
      ∧ (imgui_test_engine_script_key_chars (some s) r1
        = some { s with Cmds := s.Cmds ++ [{ Kind := CmdKind.KeyChars, A := r1.getD "" }] })
      ∧ (imgui_test_engine_script_key_chars_append (some s) r1
        = some { s with Cmds := s.Cmds ++ [{ Kind := CmdKind.KeyCharsAppend, A := r1.getD "" }] })
      ∧ (imgui_test_engine_script_key_chars_append_enter (some s) r1
        = some { s with Cmds := s.Cmds ++ [{ Kind := CmdKind.KeyCharsAppendEnter, A := r1.getD "" }] })
      ∧ (imgui_test_engine_script_key_chars_replace (some s) r1
        = some { s with Cmds := s.Cmds ++ [{ Kind := CmdKind.KeyCharsReplace, A := r1.getD "" }] })
      ∧ (imgui_test_engine_script_key_chars_replace_enter (some s) r1
        = some { s with Cmds := s.Cmds ++ [{ Kind := CmdKind.KeyCharsReplaceEnter, A := r1.getD "" }] })
      ∧ (imgui_test_engine_script_item_hold (some s) r1 x1
        = some { s with Cmds := s.Cmds ++ [{ Kind := CmdKind.ItemHold, A := r1.getD "", F := x1 }] })
      ∧ (imgui_test_engine_script_item_hold_for_frames (some s) r1 i1
        = some { s with Cmds := s.Cmds ++ [{ Kind := CmdKind.ItemHoldForFrames, A := r1.getD "", I := i1 }] })
      ∧ (imgui_test_engine_script_item_drag_over_and_hold (some s) r1 r2
        = some { s with Cmds := s.Cmds ++ [{ Kind := CmdKind.ItemDragOverAndHold, A := r1.getD "", B := r2.getD "" }] })
      ∧ (imgui_test_engine_script_item_drag_and_drop (some s) r1 r2 i1
        = some { s with Cmds := s.Cmds ++ [{ Kind := CmdKind.ItemDragAndDrop, A := r1.getD "", B := r2.getD "", I := i1 }] })
      ∧ (imgui_test_engine_script_item_drag_with_delta (some s) r1 x1 x2
        = some { s with Cmds := s.Cmds ++ [{ Kind := CmdKind.ItemDragWithDelta, A := r1.getD "", F := x1, G := x2 }] })
      ∧ (imgui_test_engine_script_scroll_to_x (some s) r1 x1
        = some { s with Cmds := s.Cmds ++ [{ Kind := CmdKind.ScrollToX, A := r1.getD "", F := x1 }] })
      ∧ (imgui_test_engine_script_scroll_to_y (some s) r1 x1
        = some { s with Cmds := s.Cmds ++ [{ Kind := CmdKind.ScrollToY, A := r1.getD "", F := x1 }] })
      ∧ (imgui_test_engine_script_scroll_to_pos_x (some s) r1 x1
        = some { s with Cmds := s.Cmds ++ [{ Kind := CmdKind.ScrollToPosX, A := r1.getD "", F := x1 }] })
      ∧ (imgui_test_engine_script_scroll_to_pos_y (some s) r1 x1
        = some { s with Cmds := s.Cmds ++ [{ Kind := CmdKind.ScrollToPosY, A := r1.getD "", F := x1 }] })
      ∧ (imgui_test_engine_script_scroll_to_item_x (some s) r1
        = some { s with Cmds := s.Cmds ++ [{ Kind := CmdKind.ScrollToItemX, A := r1.getD "" }] })
      ∧ (imgui_test_engine_script_scroll_to_item_y (some s) r1
        = some { s with Cmds := s.Cmds ++ [{ Kind := CmdKind.ScrollToItemY, A := r1.getD "" }] })
      ∧ (imgui_test_engine_script_scroll_to_top (some s) r1
        = some { s with Cmds := s.Cmds ++ [{ Kind := CmdKind.ScrollToTop, A := r1.getD "" }] })
      ∧ (imgui_test_engine_script_scroll_to_bottom (some s) r1
        = some { s with Cmds := s.Cmds ++ [{ Kind := CmdKind.ScrollToBottom, A := r1.getD "" }] })
      ∧ (imgui_test_engine_script_tab_close (some s) r1
        = some { s with Cmds := s.Cmds ++ [{ Kind := CmdKind.TabClose, A := r1.getD "" }] })
      ∧ (imgui_test_engine_script_combo_click (some s) r1
        = some { s with Cmds := s.Cmds ++ [{ Kind := CmdKind.ComboClick, A := r1.getD "" }] })
      ∧ (imgui_test_engine_script_combo_click_all (some s) r1
        = some { s with Cmds := s.Cmds ++ [{ Kind := CmdKind.ComboClickAll, A := r1.getD "" }] })
      ∧ (imgui_test_engine_script_item_open_all (some s) r1 i1 i2
        = some { s with Cmds := s.Cmds ++ [{ Kind := CmdKind.ItemOpenAll, A := r1.getD "", I := i1, J := i2 }] })
      ∧ (imgui_test_engine_script_item_close_all (some s) r1 i1 i2
        = some { s with Cmds := s.Cmds ++ [{ Kind := CmdKind.ItemCloseAll, A := r1.getD "", I := i1, J := i2 }] })
      ∧ (imgui_test_engine_script_table_click_header (some s) r1 r2 i1
        = some { s with Cmds := s.Cmds ++ [{ Kind := CmdKind.TableClickHeader, A := r1.getD "", B := r2.getD "", I := i1 }] })
      ∧ (imgui_test_engine_script_table_open_context_menu (some s) r1 i1
        = some { s with Cmds := s.Cmds ++ [{ Kind := CmdKind.TableOpenContextMenu, A := r1.getD "", I := i1 }] })
      ∧ (imgui_test_engine_script_table_set_column_enabled (some s) r1 i1 bl
        = some { s with Cmds := s.Cmds ++ [{ Kind := CmdKind.TableSetColumnEnabled, A := r1.getD "", I := i1, J := if bl then 1 else 0 }] })
      ∧ (imgui_test_engine_script_table_set_column_enabled_by_label (some s) r1 r2 bl
        = some { s with Cmds := s.Cmds ++ [{ Kind := CmdKind.TableSetColumnEnabledByLabel, A := r1.getD "", B := r2.getD "", I := if bl then 1 else 0 }] })
      ∧ (imgui_test_engine_script_table_resize_column (some s) r1 i1 x1
        = some { s with Cmds := s.Cmds ++ [{ Kind := CmdKind.TableResizeColumn, A := r1.getD "", I := i1, F := x1 }] })
      ∧ (imgui_test_engine_script_menu_click (some s) r1
        = some { s with Cmds := s.Cmds ++ [{ Kind := CmdKind.MenuClick, A := r1.getD "" }] })
      ∧ (imgui_test_engine_script_menu_check (some s) r1
        = some { s with Cmds := s.Cmds ++ [{ Kind := CmdKind.MenuCheck, A := r1.getD "" }] })
      ∧ (imgui_test_engine_script_menu_uncheck (some s) r1
        = some { s with Cmds := s.Cmds ++ [{ Kind := CmdKind.MenuUncheck, A := r1.getD "" }] })
      ∧ (imgui_test_engine_script_menu_check_all (some s) r1
        = some { s with Cmds := s.Cmds ++ [{ Kind := CmdKind.MenuCheckAll, A := r1.getD "" }] })
      ∧ (imgui_test_engine_script_menu_uncheck_all (some s) r1
        = some { s with Cmds := s.Cmds ++ [{ Kind := CmdKind.MenuUncheckAll, A := r1.getD "" }] })
      ∧ (imgui_test_engine_script_set_input_mode (some s) i1
        = some { s with Cmds := s.Cmds ++ [{ Kind := CmdKind.SetInputMode, I := i1 }] })
      ∧ (imgui_test_engine_script_nav_move_to (some s) r1
        = some { s with Cmds := s.Cmds ++ [{ Kind := CmdKind.NavMoveTo, A := r1.getD "" }] })
      ∧ (imgui_test_engine_script_nav_activate (some s)
        = some { s with Cmds := s.Cmds ++ [{ Kind := CmdKind.NavActivate }] })
      ∧ (imgui_test_engine_script_nav_input (some s)
        = some { s with Cmds := s.Cmds ++ [{ Kind := CmdKind.NavInput }] })
      ∧ (imgui_test_engine_script_window_close (some s) r1
        = some { s with Cmds := s.Cmds ++ [{ Kind := CmdKind.WindowClose, A := r1.getD "" }] })
      ∧ (imgui_test_engine_script_window_collapse (some s) r1 bl
        = some { s with Cmds := s.Cmds ++ [{ Kind := CmdKind.WindowCollapse, A := r1.getD "", I := if bl then 1 else 0 }] })
      ∧ (imgui_test_engine_script_window_focus (some s) r1
        = some { s with Cmds := s.Cmds ++ [{ Kind := CmdKind.WindowFocus, A := r1.getD "" }] })
      ∧ (imgui_test_engine_script_window_bring_to_front (some s) r1
        = some { s with Cmds := s.Cmds ++ [{ Kind := CmdKind.WindowBringToFront, A := r1.getD "" }] })
      ∧ (imgui_test_engine_script_window_move (some s) r1 x1 x2
        = some { s with Cmds := s.Cmds ++ [{ Kind := CmdKind.WindowMove, A := r1.getD "", F := x1, G := x2 }] })
      ∧ (imgui_test_engine_script_window_resize (some s) r1 x1 x2
        = some { s with Cmds := s.Cmds ++ [{ Kind := CmdKind.WindowResize, A := r1.getD "", F := x1, G := x2 }] })
      ∧ (imgui_test_engine_script_sleep (some s) x1
        = some { s with Cmds := s.Cmds ++ [{ Kind := CmdKind.Sleep, F := x1 }] })
      ∧ (imgui_test_engine_script_assert_item_exists (some s) r1
        = some { s with Cmds := s.Cmds ++ [{ Kind := CmdKind.AssertItemExists, A := r1.getD "" }] })
      ∧ (imgui_test_engine_script_assert_item_visible (some s) r1
        = some { s with Cmds := s.Cmds ++ [{ Kind := CmdKind.AssertItemVisible, A := r1.getD "" }] })
      ∧ (imgui_test_engine_script_assert_item_read_int_eq (some s) r1 i1
        = some { s with Cmds := s.Cmds ++ [{ Kind := CmdKind.AssertItemReadIntEq, A := r1.getD "", I := i1 }] })
      ∧ (imgui_test_engine_script_assert_item_read_str_eq (some s) r1 r2
        = some { s with Cmds := s.Cmds ++ [{ Kind := CmdKind.AssertItemReadStrEq, A := r1.getD "", B := r2.getD "" }] })
      ∧ (imgui_test_engine_script_assert_item_read_float_eq (some s) r1 x1 x2
        = some { s with Cmds := s.Cmds ++ [{ Kind := CmdKind.AssertItemReadFloatEq, A := r1.getD "", F := x1, G := x2 }] })
      ∧ (imgui_test_engine_script_wait_for_item (some s) r1 i1
        = some { s with Cmds := s.Cmds ++ [{ Kind := CmdKind.WaitForItem, A := r1.getD "", I := i1 }] })
      ∧ (imgui_test_engine_script_wait_for_item_visible (some s) r1 i1
        = some { s with Cmds := s.Cmds ++ [{ Kind := CmdKind.WaitForItemVisible, A := r1.getD "", I := i1 }] })
      ∧ (imgui_test_engine_script_assert_item_checked (some s) r1
        = some { s with Cmds := s.Cmds ++ [{ Kind := CmdKind.AssertItemChecked, A := r1.getD "" }] })
      ∧ (imgui_test_engine_script_assert_item_opened (some s) r1
        = some { s with Cmds := s.Cmds ++ [{ Kind := CmdKind.AssertItemOpened, A := r1.getD "" }] })
      ∧ (imgui_test_engine_script_wait_for_item_checked (some s) r1 i1
        = some { s with Cmds := s.Cmds ++ [{ Kind := CmdKind.WaitForItemChecked, A := r1.getD "", I := i1 }] })
      ∧ (imgui_test_engine_script_wait_for_item_opened (some s) r1 i1
        = some { s with Cmds := s.Cmds ++ [{ Kind := CmdKind.WaitForItemOpened, A := r1.getD "", I := i1 }] })
      ∧ (imgui_test_engine_script_yield (some s) i1
        = some { s with Cmds := s.Cmds ++ [{ Kind := CmdKind.Yield, I := i1 }] }) := by
  intro s r1 r2 i1 i2 x1 x2 bl
  exact ⟨rfl, rfl, rfl, rfl, rfl, rfl, rfl, rfl, rfl, rfl, rfl, rfl, rfl, rfl, rfl, rfl, rfl, rfl, rfl, rfl, rfl, rfl, rfl, rfl, rfl, rfl, rfl, rfl, rfl, rfl, rfl, rfl, rfl, rfl, rfl, rfl, rfl, rfl, rfl, rfl, rfl, rfl, rfl, rfl, rfl, rfl, rfl, rfl, rfl, rfl, rfl, rfl, rfl, rfl, rfl, rfl, rfl, rfl, rfl, rfl, rfl, rfl, rfl, rfl, rfl, rfl, rfl, rfl, rfl, rfl, rfl, rfl, rfl, rfl, rfl, rfl, rfl, rfl, rfl, rfl, rfl, rfl, rfl⟩

/-! ### Claim C9 -/

/-- C9: every host-facing operation given a null required non-string
pointer is a silent no-op: every append wrapper with a null buffer handle
changes nothing, and registration with a null engine, category, name or
buffer handle leaves the registry state (and every buffer in it)
unchanged. -/
theorem C9_null_handles_are_noops :
    ∀ (r1 r2 : Option String) (i1 i2 : Int) (x1 x2 : Rat) (bl : Bool)
      (e sid : Nat) (c nm : String) (st : ShimState),
      (imgui_test_engine_script_set_ref none r1 = none)
      ∧ (imgui_test_engine_script_item_click none r1 = none)
      ∧ (imgui_test_engine_script_item_click_with_button none r1 i1 = none)
      ∧ (imgui_test_engine_script_item_double_click none r1 = none)
      ∧ (imgui_test_engine_script_item_open none r1 = none)
      ∧ (imgui_test_engine_script_item_close none r1 = none)
      ∧ (imgui_test_engine_script_item_check none r1 = none)
      ∧ (imgui_test_engine_script_item_uncheck none r1 = none)
      ∧ (imgui_test_engine_script_item_input_int none r1 i1 = none)
      ∧ (imgui_test_engine_script_item_input_str none r1 r2 = none)
      ∧ (imgui_test_engine_script_mouse_move none r1 = none)
      ∧ (imgui_test_engine_script_mouse_move_to_pos none x1 x2 = none)
      ∧ (imgui_test_engine_script_mouse_teleport_to_pos none x1 x2 = none)
      ∧ (imgui_test_engine_script_mouse_move_to_void none = none)
      ∧ (imgui_test_engine_script_mouse_click none i1 = none)
      ∧ (imgui_test_engine_script_mouse_click_multi none i1 i2 = none)
      ∧ (imgui_test_engine_script_mouse_double_click none i1 = none)
      ∧ (imgui_test_engine_script_mouse_down none i1 = none)
      ∧ (imgui_test_engine_script_mouse_up none i1 = none)
      ∧ (imgui_test_engine_script_mouse_lift_drag_threshold none i1 = none)
      ∧ (imgui_test_engine_script_mouse_drag_with_delta none x1 x2 i1 = none)
      ∧ (imgui_test_engine_script_mouse_click_on_void none i1 i2 = none)
      ∧ (imgui_test_engine_script_mouse_wheel none x1 x2 = none)
      ∧ (imgui_test_engine_script_key_down none i1 = none)
      ∧ (imgui_test_engine_script_key_up none i1 = none)
      ∧ (imgui_test_engine_script_key_press none i1 i2 = none)
      ∧ (imgui_test_engine_script_key_hold none i1 x1 = none)
      ∧ (imgui_test_engine_script_key_chars none r1 = none)
      ∧ (imgui_test_engine_script_key_chars_append none r1 = none)
      ∧ (imgui_test_engine_script_key_chars_append_enter none r1 = none)
      ∧ (imgui_test_engine_script_key_chars_replace none r1 = none)
      ∧ (imgui_test_engine_script_key_chars_replace_enter none r1 = none)
      ∧ (imgui_test_engine_script_item_hold none r1 x1 = none)
      ∧ (imgui_test_engine_script_item_hold_for_frames none r1 i1 = none)
      ∧ (imgui_test_engine_script_item_drag_over_and_hold none r1 r2 = none)
      ∧ (imgui_test_engine_script_item_drag_and_drop none r1 r2 i1 = none)
      ∧ (imgui_test_engine_script_item_drag_with_delta none r1 x1 x2 = none)
      ∧ (imgui_test_engine_script_scroll_to_x none r1 x1 = none)
      ∧ (imgui_test_engine_script_scroll_to_y none r1 x1 = none)
      ∧ (imgui_test_engine_script_scroll_to_pos_x none r1 x1 = none)
      ∧ (imgui_test_engine_script_scroll_to_pos_y none r1 x1 = none)
      ∧ (imgui_test_engine_script_scroll_to_item_x none r1 = none)
      ∧ (imgui_test_engine_script_scroll_to_item_y none r1 = none)
      ∧ (imgui_test_engine_script_scroll_to_top none r1 = none)
      ∧ (imgui_test_engine_script_scroll_to_bottom none r1 = none)
      ∧ (imgui_test_engine_script_tab_close none r1 = none)
      ∧ (imgui_test_engine_script_combo_click none r1 = none)
      ∧ (imgui_test_engine_script_combo_click_all none r1 = none)
      ∧ (imgui_test_engine_script_item_open_all none r1 i1 i2 = none)
      ∧ (imgui_test_engine_script_item_close_all none r1 i1 i2 = none)
      ∧ (imgui_test_engine_script_table_click_header none r1 r2 i1 = none)
      ∧ (imgui_test_engine_script_table_open_context_menu none r1 i1 = none)
      ∧ (imgui_test_engine_script_table_set_column_enabled none r1 i1 bl = none)
      ∧ (imgui_test_engine_script_table_set_column_enabled_by_label none r1 r2 bl = none)
      ∧ (imgui_test_engine_script_table_resize_column none r1 i1 x1 = none)
      ∧ (imgui_test_engine_script_menu_click none r1 = none)
      ∧ (imgui_test_engine_script_menu_check none r1 = none)
      ∧ (imgui_test_engine_script_menu_uncheck none r1 = none)
      ∧ (imgui_test_engine_script_menu_check_all none r1 = none)
      ∧ (imgui_test_engine_script_menu_uncheck_all none r1 = none)
      ∧ (imgui_test_engine_script_set_input_mode none i1 = none)
      ∧ (imgui_test_engine_script_nav_move_to none r1 = none)
      ∧ (imgui_test_engine_script_nav_activate none = none)
      ∧ (imgui_test_engine_script_nav_input none = none)
      ∧ (imgui_test_engine_script_window_close none r1 = none)
      ∧ (imgui_test_engine_script_window_collapse none r1 bl = none)
      ∧ (imgui_test_engine_script_window_focus none r1 = none)
      ∧ (imgui_test_engine_script_window_bring_to_front none r1 = none)
      ∧ (imgui_test_engine_script_window_move none r1 x1 x2 = none)
      ∧ (imgui_test_engine_script_window_resize none r1 x1 x2 = none)
      ∧ (imgui_test_engine_script_sleep none x1 = none)
      ∧ (imgui_test_engine_script_assert_item_exists none r1 = none)
      ∧ (imgui_test_engine_script_assert_item_visible none r1 = none)
      ∧ (imgui_test_engine_script_assert_item_read_int_eq none r1 i1 = none)
      ∧ (imgui_test_engine_script_assert_item_read_str_eq none r1 r2 = none)
      ∧ (imgui_test_engine_script_assert_item_read_float_eq none r1 x1 x2 = none)
      ∧ (imgui_test_engine_script_wait_for_item none r1 i1 = none)
      ∧ (imgui_test_engine_script_wait_for_item_visible none r1 i1 = none)
      ∧ (imgui_test_engine_script_assert_item_checked none r1 = none)
      ∧ (imgui_test_engine_script_assert_item_opened none r1 = none)
      ∧ (imgui_test_engine_script_wait_for_item_checked none r1 i1 = none)
      ∧ (imgui_test_engine_script_wait_for_item_opened none r1 i1 = none)
      ∧ (imgui_test_engine_script_yield none i1 = none)
      ∧ (imgui_test_engine_register_script_test none (some c) (some nm) (some sid) st = st)
      ∧ (imgui_test_engine_register_script_test (some e) none (some nm) (some sid) st = st)
      ∧ (imgui_test_engine_register_script_test (some e) (some c) none (some sid) st = st)
      ∧ (imgui_test_engine_register_script_test (some e) (some c) (some nm) none st = st) := by
  intro r1 r2 i1 i2 x1 x2 bl e sid c nm st
  exact ⟨rfl, rfl, rfl, rfl, rfl, rfl, rfl, rfl, rfl, rfl, rfl, rfl, rfl, rfl, rfl, rfl, rfl, rfl, rfl, rfl, rfl, rfl, rfl, rfl, rfl, rfl, rfl, rfl, rfl, rfl, rfl, rfl, rfl, rfl, rfl, rfl, rfl, rfl, rfl, rfl, rfl, rfl, rfl, rfl, rfl, rfl, rfl, rfl, rfl, rfl, rfl, rfl, rfl, rfl, rfl, rfl, rfl, rfl, rfl, rfl, rfl, rfl, rfl, rfl, rfl, rfl, rfl, rfl, rfl, rfl, rfl, rfl, rfl, rfl, rfl, rfl, rfl, rfl, rfl, rfl, rfl, rfl, rfl, rfl, rfl, rfl, rfl⟩


/-! ### Claim C8 -/

/-- Looking up a key appended at the tail when it was absent before. -/
theorem lookupKey_append_single {β : Type} (r : List (Nat × β)) (p : Nat × β)
    (k : Nat) (h : lookupKey r k = none) :
    lookupKey (r ++ [p]) k = if p.1 = k then some p.2 else none := by
  induction r with
  | nil => rfl
  | cons q qs ih =>
    simp only [lookupKey] at h
    split at h
    · exact absurd h (by simp)
    · rw [List.cons_append]
      simp only [lookupKey]
      rw [if_neg (by assumption)]
      exact ih h

/-- Pushing a script id onto an existing registry entry rewrites exactly
that entry's list. -/
theorem lookupKey_map_add (r : List (Nat × List Nat)) (e sid : Nat)
    (ids : List Nat) (h : lookupKey r e = some ids) :
    lookupKey (r.map (fun p => if p.1 = e then (p.1, p.2 ++ [sid]) else p)) e
      = some (ids ++ [sid]) := by
  induction r with
  | nil => simp [lookupKey] at h
  | cons q qs ih =>
    obtain ⟨qk, qv⟩ := q
    simp only [lookupKey] at h
    by_cases hq : qk = e
    · rw [if_pos hq] at h
      injection h with h2
      subst h2
      simp only [List.map_cons]
      rw [if_pos (by simpa using hq)]
      simp only [lookupKey]
      rw [if_pos (by simpa using hq)]
    · rw [if_neg hq] at h
      simp only [List.map_cons]
      rw [if_neg (by simpa using hq)]
      simp only [lookupKey]
      rw [if_neg (by simpa using hq)]
      exact ih h

/-- After appending under key `e`, every entry for that key is gone from
the filtered list used by the cleanup hook. -/
theorem lookupKey_filter_self {β : Type} (r : List (Nat × β)) (e : Nat) :
    lookupKey (r.filter (fun p => !(p.1 == e))) e = none := by
  induction r with
  | nil => rfl
  | cons q qs ih =>
    obtain ⟨qk, qv⟩ := q
    by_cases hq : qk = e
    · rw [List.filter_cons_of_neg (by simp [hq])]
      exact ih
    · rw [List.filter_cons_of_pos (by simp [hq])]
      simp only [lookupKey]
      rw [if_neg (by simpa using hq)]
      exact ih

/-- Dropping the entries of one key leaves lookups of every other key
unchanged. -/
theorem lookupKey_filter_other {β : Type} (r : List (Nat × β)) (e e2 : Nat)
    (h : e2 ≠ e) :
    lookupKey (r.filter (fun p => !(p.1 == e))) e2 = lookupKey r e2 := by
  induction r with
  | nil => rfl
  | cons q qs ih =>
    obtain ⟨qk, qv⟩ := q
    by_cases hq : qk = e
    · rw [List.filter_cons_of_neg (by simp [hq])]
      rw [ih]
      simp only [lookupKey]
      rw [if_neg (by simp [hq]; omega)]
    · rw [List.filter_cons_of_pos (by simp [hq])]
      simp only [lookupKey]
      by_cases hq2 : qk = e2
      · rw [if_pos (by simpa using hq2), if_pos (by simpa using hq2)]
      · rw [if_neg (by simpa using hq2), if_neg (by simpa using hq2)]
        exact ih

/-- C8: registration with all-non-null arguments records the buffer under
its engine in the per-engine registry (creating the entry or appending to
it) and stores the category on the buffer; the engine-teardown cleanup hook
removes the engine's registry entry, deletes every buffer registered under
it (also when several were registered under different names), leaves other
engines' registry entries and any buffer not registered under this engine
untouched, and is a no-op for an engine with no registered buffers. -/
theorem C8_registry_and_cleanup :
    ∀ (st : ShimState) (e e2 sid : Nat) (cat nm : String)
      (s : ImGuiTestEngineScript) (ids : List Nat),
      (lookupKey st.reg e = none →
        lookupKey (imgui_test_engine_register_script_test (some e) (some cat)
            (some nm) (some sid) st).reg e = some [sid])
      ∧ (lookupKey st.reg e = some ids →
        lookupKey (imgui_test_engine_register_script_test (some e) (some cat)
            (some nm) (some sid) st).reg e = some (ids ++ [sid]))
      ∧ ((sid, s) ∈ st.scripts →
        (sid, { s with Category := cat })
          ∈ (imgui_test_engine_register_script_test (some e) (some cat)
              (some nm) (some sid) st).scripts)
      ∧ (lookupKey st.reg e = none → script_free_for_engine e st = st)
      ∧ (lookupKey (script_free_for_engine e st).reg e = none)
      ∧ (lookupKey st.reg e = some ids →
          ∀ i ∈ ids, ∀ s2, (i, s2) ∉ (script_free_for_engine e st).scripts)
      ∧ (e2 ≠ e →
          lookupKey (script_free_for_engine e st).reg e2 = lookupKey st.reg e2)
      ∧ ((∀ ids2, lookupKey st.reg e = some ids2 → sid ∉ ids2) →
          ((sid, s) ∈ (script_free_for_engine e st).scripts
            ↔ (sid, s) ∈ st.scripts)) := by
  intro st e e2 sid cat nm s ids
  refine ⟨?_, ?_, ?_, ?_, ?_, ?_, ?_, ?_⟩
  · intro h
    show lookupKey (regAdd st.reg e sid) e = some [sid]
    unfold regAdd
    rw [h]
    simp only [Option.isSome_none, Bool.false_eq_true, if_false]
    rw [lookupKey_append_single st.reg (e, [sid]) e h]
    simp
  · intro h
    show lookupKey (regAdd st.reg e sid) e = some (ids ++ [sid])
    unfold regAdd
    rw [h]
    simp only [Option.isSome_some, if_true]
    exact lookupKey_map_add st.reg e sid ids h
  · intro h
    show (sid, { s with Category := cat }) ∈ st.scripts.map _
    refine List.mem_map.2 ⟨(sid, s), h, ?_⟩
    simp
  · intro h
    unfold script_free_for_engine
    rw [h]
  · unfold script_free_for_engine
    rcases hr : lookupKey st.reg e with _ | ids2
    · exact hr
    · exact lookupKey_filter_self st.reg e
  · intro h i hi s2
    unfold script_free_for_engine
    rw [h]
    intro hmem
    have := (List.mem_filter.1 hmem).2
    simp only [Bool.not_eq_true'] at this
    simp at this
    exact this hi
  · intro h2
    unfold script_free_for_engine
    rcases hr : lookupKey st.reg e with _ | ids2
    · rfl
    · exact lookupKey_filter_other st.reg e e2 h2
  · intro h
    unfold script_free_for_engine
    rcases hr : lookupKey st.reg e with _ | ids2
    · rfl
    · have hsid : sid ∉ ids2 := h ids2 hr
      constructor
      · intro hmem
        exact (List.mem_filter.1 hmem).1
      · intro hmem
        refine List.mem_filter.2 ⟨hmem, ?_⟩
        simp only [Bool.not_eq_eq_eq_not, Bool.not_true]
        simpa using hsid

/-- Witness for C8 at a concrete state: two buffers registered under engine
1 and one under engine 2; tearing engine 1 down removes both of engine 1's
buffers and its registry entry while engine 2's entry and buffer survive,
and tearing down an engine with no entry changes nothing. -/
theorem C8_registry_and_cleanup_witness :
    lookupKey (imgui_test_engine_register_script_test (some 1) (some "cat")
        (some "t1") (some 10)
        { scripts := [(10, {}), (11, {}), (20, {})], reg := [] }).reg 1
      = some [10]
    ∧ (∀ s2, (10, s2) ∉ (script_free_for_engine 1
        { scripts := [(10, {}), (11, {}), (20, {})],
          reg := [(1, [10, 11]), (2, [20])] }).scripts)
    ∧ lookupKey (script_free_for_engine 1
        { scripts := [(10, {}), (11, {}), (20, {})],
          reg := [(1, [10, 11]), (2, [20])] }).reg 1 = none
    ∧ lookupKey (script_free_for_engine 1
        { scripts := [(10, {}), (11, {}), (20, {})],
          reg := [(1, [10, 11]), (2, [20])] }).reg 2 = some [20]
    ∧ ((20, ({} : ImGuiTestEngineScript)) ∈ (script_free_for_engine 1
        { scripts := [(10, {}), (11, {}), (20, {})],
          reg := [(1, [10, 11]), (2, [20])] }).scripts
        ↔ (20, ({} : ImGuiTestEngineScript))
            ∈ ({ scripts := [(10, {}), (11, {}), (20, {})],
                 reg := [(1, [10, 11]), (2, [20])] } : ShimState).scripts)
    ∧ script_free_for_engine 3
        { scripts := [(10, {})], reg := [(1, [10])] }
      = { scripts := [(10, {})], reg := [(1, [10])] } :=
  ⟨(C8_registry_and_cleanup { scripts := [(10, {}), (11, {}), (20, {})], reg := [] }
      1 2 10 "cat" "t1" {} []).1 (by decide),
   fun s2 => (C8_registry_and_cleanup
      { scripts := [(10, {}), (11, {}), (20, {})], reg := [(1, [10, 11]), (2, [20])] }
      1 2 10 "cat" "t1" {} [10, 11]).2.2.2.2.2.1 (by decide) 10 (by decide) s2,
   (C8_registry_and_cleanup
      { scripts := [(10, {}), (11, {}), (20, {})], reg := [(1, [10, 11]), (2, [20])] }
      1 2 10 "cat" "t1" {} []).2.2.2.2.1,
   (C8_registry_and_cleanup
      { scripts := [(10, {}), (11, {}), (20, {})], reg := [(1, [10, 11]), (2, [20])] }
      1 2 10 "cat" "t1" {} []).2.2.2.2.2.2.1 (by decide),
   (C8_registry_and_cleanup
      { scripts := [(10, {}), (11, {}), (20, {})], reg := [(1, [10, 11]), (2, [20])] }
      1 2 20 "cat" "t1" {} []).2.2.2.2.2.2.2 (by decide),
   (C8_registry_and_cleanup { scripts := [(10, {})], reg := [(1, [10])] }
      3 2 10 "cat" "t1" {} []).2.2.2.1 (by decide)⟩

end ImGuiTE
